import Mathlib

/-!
# Verification of the aiviz data validators

A shallow embedding of the JSON validators of the aiviz repository
(Streamlit visualization pages and `utils/data_validation.py`), together
with proofs about the properties claimed of them.

JSON-decoded Python values are modelled by `JVal`; Python runtime errors
(`TypeError`, `KeyError`, ...) are modelled by `PyErr`, and every fallible
Python operation used by the validators (subscription, membership tests,
iteration, `len`, set operations, numeric arithmetic) is embedded as a
function into `Except PyErr _`.  Python numbers are modelled exactly:
`int` by `Int`, `float` by `Rat` (every validator only compares and adds
numbers, operations on which the IEEE doubles of the decoded JSON agree
with the rationals for the values at stake), and the fact that Python's
`bool` is a subclass of `int` is preserved.
-/

/-- A JSON-decoded Python value.  Object keys are strings (as in any
`json.loads` result) and objects retain insertion order with distinct
keys. -/
inductive JVal where
  | jnull
  | jbool (b : Bool)
  | jint (n : Int)
  | jfloat (q : Rat)
  | jstr (s : String)
  | jarr (elems : List JVal)
  | jobj (fields : List (String × JVal))

/-- A Python exception escaping an expression. -/
inductive PyErr where
  | typeError (msg : String)
  | keyError (msg : String)
  | attributeError (msg : String)
  | indexError (msg : String)
  | valueError (msg : String)
deriving DecidableEq

/-- `isinstance(v, dict)` -/
def JVal.isObj : JVal → Bool
  | .jobj _ => true
  | _ => false

/-- `isinstance(v, list)` -/
def JVal.isList : JVal → Bool
  | .jarr _ => true
  | _ => false

/-- `isinstance(v, str)` -/
def JVal.isStr : JVal → Bool
  | .jstr _ => true
  | _ => false

/-- `isinstance(v, int)`.  Python's `bool` is a subclass of `int`. -/
def isInt : JVal → Bool
  | .jint _ => true
  | .jbool _ => true
  | _ => false

/-- `isinstance(v, (int, float))`. -/
def isNum : JVal → Bool
  | .jint _ => true
  | .jbool _ => true
  | .jfloat _ => true
  | _ => false

/-- The exact numeric value of a Python number (`True` counts as 1,
`False` as 0); junk 0 on non-numbers, only used under an `isNum` guard. -/
def toRat : JVal → Rat
  | .jint n => (n : Rat)
  | .jbool b => if b then 1 else 0
  | .jfloat q => q
  | _ => 0

mutual

/-- Python `==`.  Numbers (including `bool`) compare by numeric value
across `int`/`float`; `None` and strings compare to themselves; lists
compare pointwise.  JSON-decoded dicts have distinct keys in insertion
order, and no validator in the repository ever compares two dicts, so
dict equality is modelled pointwise in field order. -/
def pyEq (a b : JVal) : Bool :=
  if isNum a && isNum b then toRat a == toRat b
  else
    match a, b with
    | .jnull, .jnull => true
    | .jstr s, .jstr t => s == t
    | .jarr xs, .jarr ys => pyEqList xs ys
    | .jobj xs, .jobj ys => pyEqObj xs ys
    | _, _ => false

def pyEqList : List JVal → List JVal → Bool
  | [], [] => true
  | x :: xs, y :: ys => pyEq x y && pyEqList xs ys
  | _, _ => false

def pyEqObj : List (String × JVal) → List (String × JVal) → Bool
  | [], [] => true
  | (k1, v1) :: xs, (k2, v2) :: ys => k1 == k2 && pyEq v1 v2 && pyEqObj xs ys
  | _, _ => false

end

/-- Values Python can hash: everything except lists and dicts here. -/
def pyHashable : JVal → Bool
  | .jarr _ => false
  | .jobj _ => false
  | _ => true

/-- Model rendering of a Python float (used only inside interpolated
error messages; no claim depends on the rendering of a non-integral
float). -/
def ratStr (q : Rat) : String :=
  if q.den == 1 then toString q.num ++ ".0"
  else toString q.num ++ "/" ++ toString q.den

mutual

/-- Python `repr`, as used by `str` on the elements of containers. -/
def pyRepr : JVal → String
  | .jnull => "None"
  | .jbool b => if b then "True" else "False"
  | .jint n => toString n
  | .jfloat q => ratStr q
  | .jstr s => "'" ++ s ++ "'"
  | .jarr xs => "[" ++ pyReprList xs ++ "]"
  | .jobj kvs => "\x7b" ++ pyReprObj kvs ++ "\x7d"

def pyReprList : List JVal → String
  | [] => ""
  | [x] => pyRepr x
  | x :: xs => pyRepr x ++ ", " ++ pyReprList xs

def pyReprObj : List (String × JVal) → String
  | [] => ""
  | [(k, v)] => "'" ++ k ++ "': " ++ pyRepr v
  | (k, v) :: kvs => "'" ++ k ++ "': " ++ pyRepr v ++ ", " ++ pyReprObj kvs

end

/-- Python `str`, as used by f-string interpolation. -/
def pyStr : JVal → String
  | .jstr s => s
  | v => pyRepr v

/-- Python `len`. -/
def pyLen : JVal → Except PyErr Nat
  | .jstr s => .ok s.length
  | .jarr xs => .ok xs.length
  | .jobj kvs => .ok kvs.length
  | _ => .error (.typeError "object has no len")

/-- First binding of a key in a JSON object. -/
def objLookup (kvs : List (String × JVal)) (key : String) : Option JVal :=
  match kvs with
  | [] => none
  | (k, v) :: rest => if k == key then some v else objLookup rest key

/-- Python list indexing, with negative indices counting from the end. -/
def listIndex (xs : List JVal) (n : Int) : Except PyErr JVal :=
  let len : Int := xs.length
  let i := if n < 0 then n + len else n
  if 0 ≤ i ∧ i < len then .ok (xs.getD i.toNat .jnull)
  else .error (.indexError "list index out of range")

/-- Python string indexing (yields a one-character string). -/
def strIndex (s : String) (n : Int) : Except PyErr JVal :=
  let cs := s.toList
  let len : Int := cs.length
  let i := if n < 0 then n + len else n
  if 0 ≤ i ∧ i < len then .ok (.jstr (String.singleton (cs.getD i.toNat ' ')))
  else .error (.indexError "string index out of range")

/-- Python subscription `container[item]`. -/
def pySubscr (container item : JVal) : Except PyErr JVal :=
  match container with
  | .jobj kvs =>
      if pyHashable item then
        match item with
        | .jstr s =>
            match objLookup kvs s with
            | some v => .ok v
            | none => .error (.keyError (pyRepr item))
        | _ => .error (.keyError (pyRepr item))
      else .error (.typeError "unhashable type")
  | .jarr xs =>
      match item with
      | .jint n => listIndex xs n
      | .jbool b => listIndex xs (if b then 1 else 0)
      | _ => .error (.typeError "list indices must be integers")
  | .jstr s =>
      match item with
      | .jint n => strIndex s n
      | .jbool b => strIndex s (if b then 1 else 0)
      | _ => .error (.typeError "string indices must be integers")
  | _ => .error (.typeError "object is not subscriptable")

/-- Character-list prefix test, with decidable-equality comparison. -/
def isPrefixChars : List Char → List Char → Bool
  | [], _ => true
  | _ :: _, [] => false
  | c :: cs, d :: ds => c == d && isPrefixChars cs ds

/-- Character-list substring test. -/
def containsChars (hay sub : List Char) : Bool :=
  match hay with
  | [] => isPrefixChars sub []
  | _ :: t => isPrefixChars sub hay || containsChars t sub

/-- Python `sub in hay` on strings (substring containment). -/
def strContains (hay sub : String) : Bool :=
  containsChars hay.toList sub.toList

/-- Python membership `item in container`. -/
def pyContains (item container : JVal) : Except PyErr Bool :=
  match container with
  | .jobj kvs =>
      if pyHashable item then
        match item with
        | .jstr s => .ok (objLookup kvs s).isSome
        | _ => .ok false
      else .error (.typeError "unhashable type")
  | .jarr xs => .ok (xs.any (fun y => pyEq y item))
  | .jstr s =>
      match item with
      | .jstr sub => .ok (strContains s sub)
      | _ => .error (.typeError "requires string as left operand")
  | _ => .error (.typeError "argument is not iterable")

/-- Python `container.get(key, default)` (dicts only). -/
def pyGet (container : JVal) (key : String) (dflt : JVal) : Except PyErr JVal :=
  match container with
  | .jobj kvs => .ok ((objLookup kvs key).getD dflt)
  | _ => .error (.attributeError "object has no attribute get")

/-- Python iteration `for x in v` (lists yield elements, strings their
characters, dicts their keys). -/
def pyIter : JVal → Except PyErr (List JVal)
  | .jarr xs => .ok xs
  | .jstr s => .ok (s.toList.map (fun c => .jstr (String.singleton c)))
  | .jobj kvs => .ok (kvs.map (fun kv => .jstr kv.1))
  | _ => .error (.typeError "object is not iterable")

/-- Python truthiness. -/
def pyTruthy : JVal → Bool
  | .jnull => false
  | .jbool b => b
  | .jint n => n != 0
  | .jfloat q => q != 0
  | .jstr s => !s.isEmpty
  | .jarr xs => !xs.isEmpty
  | .jobj kvs => !kvs.isEmpty

/-- Set membership `x in s` (hashes `x` first, as Python does). -/
def pySetContains (s : List JVal) (x : JVal) : Except PyErr Bool :=
  if pyHashable x then .ok (s.any (fun y => pyEq y x))
  else .error (.typeError "unhashable type")

/-- Set insertion `s.add(x)`. -/
def pySetAdd (s : List JVal) (x : JVal) : Except PyErr (List JVal) :=
  if pyHashable x then .ok (if s.any (fun y => pyEq y x) then s else s ++ [x])
  else .error (.typeError "unhashable type")

/-- `set(xs)` built element by element, left to right. -/
def pySetOfListAux (s : List JVal) : List JVal → Except PyErr (List JVal)
  | [] => .ok s
  | x :: rest => do
      let s2 ← pySetAdd s x
      pySetOfListAux s2 rest

/-- `set(xs)`. -/
def pySetOfList (xs : List JVal) : Except PyErr (List JVal) :=
  pySetOfListAux [] xs

/-- `type(v).__name__`. -/
def pyTypeName : JVal → String
  | .jnull => "NoneType"
  | .jbool _ => "bool"
  | .jint _ => "int"
  | .jfloat _ => "float"
  | .jstr _ => "str"
  | .jarr _ => "list"
  | .jobj _ => "dict"

/-- `str(e)` on a caught Python exception (its message). -/
def pyErrMsg : PyErr → String
  | .typeError m => m
  | .keyError m => m
  | .attributeError m => m
  | .indexError m => m
  | .valueError m => m

/-- Python numeric addition with `int`/`float` promotion (`bool` adds as
0/1 and yields `int`). -/
def pyAddNum (a b : JVal) : Except PyErr JVal :=
  match a, b with
  | .jfloat x, _ => if isNum b then .ok (.jfloat (x + toRat b))
      else .error (.typeError "unsupported operand types")
  | _, .jfloat y => if isNum a then .ok (.jfloat (toRat a + y))
      else .error (.typeError "unsupported operand types")
  | _, _ =>
      if isNum a && isNum b then .ok (.jint (toRat a + toRat b).num)
      else .error (.typeError "unsupported operand types")

/-- Python `a > b` where `a` is a number (the only use sites). -/
def pyGtNum (a b : JVal) : Except PyErr Bool :=
  if isNum a && isNum b then .ok (decide (toRat b < toRat a))
  else .error (.typeError "not supported between instances")

/-- Python `a >= b` where `a` is a number (the only use sites). -/
def pyGeNum (a b : JVal) : Except PyErr Bool :=
  if isNum a && isNum b then .ok (decide (toRat b ≤ toRat a))
  else .error (.typeError "not supported between instances")

/-- ASCII whitespace, which is all the repository's data ever
contains. -/
def isSpaceChar (c : Char) : Bool :=
  c == ' ' || c == '\t' || c == '\n' || c == '\r'

/-- Python `str.strip()` (whitespace stripping). -/
def pyStrip (s : String) : String :=
  String.mk ((s.toList.dropWhile isSpaceChar).reverse.dropWhile isSpaceChar).reverse

/-!
## `src/pages/knowledge_graph.py` — `validate_knowledge_graph_data`

The tuple-returning node/link validator.  It has no `try`/`except`, so
any Python error raised by its body escapes the function; the embedding
returns `.error` in exactly those cases.
-/

namespace KnowledgeGraph

/-- The `for node in data["nodes"]` loop: each node must be a container
with an `'id'` member whose value has not been seen before; the set of
ids is accumulated.  `Sum.inl` is an early `return` of the function,
`Sum.inr` the ids when the loop completes. -/
def nodeLoop (ids : List JVal) : List JVal → Except PyErr ((Bool × String) ⊕ (List JVal))
  | [] => .ok (.inr ids)
  | node :: rest => do
      let hasId ← pyContains (.jstr "id") node
      if !hasId then return .inl (false, "Each node must have an 'id'")
      let idv ← pySubscr node (.jstr "id")
      let seen ← pySetContains ids idv
      if seen then return .inl (false, "Node IDs must be unique")
      let ids2 ← pySetAdd ids idv
      nodeLoop ids2 rest

/-- The `for link in data["links"]` loop: each link must have
`'source'` and `'target'` members resolving to known node ids; the
failure message interpolates the dangling endpoint. -/
def linkLoop (ids : List JVal) : List JVal → Except PyErr (Option (Bool × String))
  | [] => .ok none
  | link :: rest => do
      let hasS ← pyContains (.jstr "source") link
      if !hasS then return some (false, "Each link must have 'source' and 'target'")
      let hasT ← pyContains (.jstr "target") link
      if !hasT then return some (false, "Each link must have 'source' and 'target'")
      let sv ← pySubscr link (.jstr "source")
      let sMem ← pySetContains ids sv
      if !sMem then
        let sv2 ← pySubscr link (.jstr "source")
        return some (false, "Link source '" ++ pyStr sv2 ++ "' not found in nodes")
      let tv ← pySubscr link (.jstr "target")
      let tMem ← pySetContains ids tv
      if !tMem then
        let tv2 ← pySubscr link (.jstr "target")
        return some (false, "Link target '" ++ pyStr tv2 ++ "' not found in nodes")
      linkLoop ids rest

/-- `validate_knowledge_graph_data` of `src/pages/knowledge_graph.py`. -/
def validate_knowledge_graph_data (data : JVal) : Except PyErr (Bool × String) := do
  if !data.isObj then return (false, "Data must be a dictionary")
  let hasNodes ← pyContains (.jstr "nodes") data
  if !hasNodes then return (false, "Data must contain 'nodes' and 'links' keys")
  let hasLinks ← pyContains (.jstr "links") data
  if !hasLinks then return (false, "Data must contain 'nodes' and 'links' keys")
  let nodes ← pySubscr data (.jstr "nodes")
  let nodeElems ← pyIter nodes
  match ← nodeLoop [] nodeElems with
  | .inl r => return r
  | .inr ids =>
    let links ← pySubscr data (.jstr "links")
    let linkElems ← pyIter links
    match ← linkLoop ids linkElems with
    | some r => return r
    | none =>
      let nodes2 ← pySubscr data (.jstr "nodes")
      let n ← pyLen nodes2
      if n < 2 then return (false, "At least 2 nodes are required")
      return (true, "Valid data")

end KnowledgeGraph

/-!
## The pipeline-flow validator family

`src/pages/13_Data_Pipeline_Flow.py` and
`src/pages/page13_Data_Pipeline_Flow.py` contain the character-identical
validator body (each check `raise`s a `ValueError`); they differ only in
the wrapper: the former's `except ValueError` clause re-raises the
`ValueError`, the latter's converts it to `(False, str(e))`.
`src/pages/thirteen_Data_Pipeline_Flow.py` performs the same checks in
the same order but `return`s `(False, message)` directly and has no
`try`/`except` at all; it is embedded separately below and proved
equivalent.
-/

namespace PipelineFlow

/-- The node loop shared by `13_` and `page13_`: `'id'`/`'name'`
presence, integer id, uniqueness; failures raise `ValueError`. -/
def nodeLoop (ids : List JVal) : List JVal → Except PyErr (List JVal)
  | [] => .ok ids
  | node :: rest => do
      let hasId ← pyContains (.jstr "id") node
      if !hasId then throw (.valueError "Each node must have 'id' and 'name' fields")
      let hasName ← pyContains (.jstr "name") node
      if !hasName then throw (.valueError "Each node must have 'id' and 'name' fields")
      let idv ← pySubscr node (.jstr "id")
      if !isInt idv then throw (.valueError "Node 'id' must be an integer")
      let seen ← pySetContains ids idv
      if seen then throw (.valueError "Node IDs must be unique")
      let ids2 ← pySetAdd ids idv
      nodeLoop ids2 rest

/-- The link loop shared by `13_` and `page13_`: key presence, endpoint
resolution, non-negative numeric value; failures raise `ValueError`. -/
def linkLoop (ids : List JVal) : List JVal → Except PyErr Unit
  | [] => .ok ()
  | link :: rest => do
      let hasS ← pyContains (.jstr "source") link
      if !hasS then throw (.valueError "Each link must have 'source', 'target', and 'value' fields")
      let hasT ← pyContains (.jstr "target") link
      if !hasT then throw (.valueError "Each link must have 'source', 'target', and 'value' fields")
      let hasV ← pyContains (.jstr "value") link
      if !hasV then throw (.valueError "Each link must have 'source', 'target', and 'value' fields")
      let sv ← pySubscr link (.jstr "source")
      let sMem ← pySetContains ids sv
      if !sMem then throw (.valueError "Link source and target must reference valid node IDs")
      let tv ← pySubscr link (.jstr "target")
      let tMem ← pySetContains ids tv
      if !tMem then throw (.valueError "Link source and target must reference valid node IDs")
      let vv ← pySubscr link (.jstr "value")
      if !isNum vv then throw (.valueError "Link value must be a non-negative number")
      if toRat vv < 0 then throw (.valueError "Link value must be a non-negative number")
      linkLoop ids rest

/-- The body shared by `13_` and `page13_` (identical text in both
files): root dict check, key presence, node loop, link loop, minimum
node count; every validation failure is a raised `ValueError`. -/
def body (data : JVal) : Except PyErr Unit := do
  if !data.isObj then throw (.valueError "Data must be a dictionary")
  let hasN ← pyContains (.jstr "nodes") data
  if !hasN then throw (.valueError "Data must contain 'nodes' and 'links' keys")
  let hasL ← pyContains (.jstr "links") data
  if !hasL then throw (.valueError "Data must contain 'nodes' and 'links' keys")
  let nodes ← pySubscr data (.jstr "nodes")
  let nodeElems ← pyIter nodes
  let ids ← nodeLoop [] nodeElems
  let links ← pySubscr data (.jstr "links")
  let linkElems ← pyIter links
  linkLoop ids linkElems
  let nodes2 ← pySubscr data (.jstr "nodes")
  let n ← pyLen nodes2
  if n < 2 then throw (.valueError "Pipeline must have at least 2 nodes")
  return ()

end PipelineFlow

namespace File13

/-- `validate_pipeline_data` of `src/pages/13_Data_Pipeline_Flow.py`:
returns `True` on success; its `except ValueError` clause re-raises
`ValueError(str(e))`, so every validation failure escapes as a
`ValueError` and other Python errors escape untouched. -/
def validate_pipeline_data (data : JVal) : Except PyErr Bool :=
  match PipelineFlow.body data with
  | .ok _ => .ok true
  | .error (.valueError m) => .error (.valueError m)
  | .error e => .error e

end File13

namespace Page13

/-- `validate_pipeline_data` of `src/pages/page13_Data_Pipeline_Flow.py`:
same body as `13_`, but its `except ValueError` clause returns
`(False, str(e))`; non-`ValueError` errors still escape. -/
def validate_pipeline_data (data : JVal) : Except PyErr (Bool × String) :=
  match PipelineFlow.body data with
  | .ok _ => .ok (true, "")
  | .error (.valueError m) => .ok (false, m)
  | .error e => .error e

end Page13

namespace Thirteen

/-- Node loop of `thirteen_Data_Pipeline_Flow.validate_pipeline_data`:
the same checks as `PipelineFlow.nodeLoop`, but failures are early
`return (False, message)` (`Sum.inl`) instead of raised errors. -/
def nodeLoop (ids : List JVal) : List JVal → Except PyErr ((Bool × String) ⊕ (List JVal))
  | [] => .ok (.inr ids)
  | node :: rest => do
      let hasId ← pyContains (.jstr "id") node
      if !hasId then return .inl (false, "Each node must have 'id' and 'name' fields")
      let hasName ← pyContains (.jstr "name") node
      if !hasName then return .inl (false, "Each node must have 'id' and 'name' fields")
      let idv ← pySubscr node (.jstr "id")
      if !isInt idv then return .inl (false, "Node 'id' must be an integer")
      let seen ← pySetContains ids idv
      if seen then return .inl (false, "Node IDs must be unique")
      let ids2 ← pySetAdd ids idv
      nodeLoop ids2 rest

/-- Link loop of `thirteen_Data_Pipeline_Flow.validate_pipeline_data`:
the same checks as `PipelineFlow.linkLoop` with early returns. -/
def linkLoop (ids : List JVal) : List JVal → Except PyErr (Option (Bool × String))
  | [] => .ok none
  | link :: rest => do
      let hasS ← pyContains (.jstr "source") link
      if !hasS then return some (false, "Each link must have 'source', 'target', and 'value' fields")
      let hasT ← pyContains (.jstr "target") link
      if !hasT then return some (false, "Each link must have 'source', 'target', and 'value' fields")
      let hasV ← pyContains (.jstr "value") link
      if !hasV then return some (false, "Each link must have 'source', 'target', and 'value' fields")
      let sv ← pySubscr link (.jstr "source")
      let sMem ← pySetContains ids sv
      if !sMem then return some (false, "Link source and target must reference valid node IDs")
      let tv ← pySubscr link (.jstr "target")
      let tMem ← pySetContains ids tv
      if !tMem then return some (false, "Link source and target must reference valid node IDs")
      let vv ← pySubscr link (.jstr "value")
      if !isNum vv then return some (false, "Link value must be a non-negative number")
      if toRat vv < 0 then return some (false, "Link value must be a non-negative number")
      linkLoop ids rest

/-- `validate_pipeline_data` of
`src/pages/thirteen_Data_Pipeline_Flow.py`: tuple-returning, no
`try`/`except`, so non-`ValueError` Python errors escape. -/
def validate_pipeline_data (data : JVal) : Except PyErr (Bool × String) := do
  if !data.isObj then return (false, "Data must be a dictionary")
  let hasN ← pyContains (.jstr "nodes") data
  if !hasN then return (false, "Data must contain 'nodes' and 'links' keys")
  let hasL ← pyContains (.jstr "links") data
  if !hasL then return (false, "Data must contain 'nodes' and 'links' keys")
  let nodes ← pySubscr data (.jstr "nodes")
  let nodeElems ← pyIter nodes
  match ← nodeLoop [] nodeElems with
  | .inl r => return r
  | .inr ids =>
    let links ← pySubscr data (.jstr "links")
    let linkElems ← pyIter links
    match ← linkLoop ids linkElems with
    | some r => return r
    | none =>
      let nodes2 ← pySubscr data (.jstr "nodes")
      let n ← pyLen nodes2
      if n < 2 then return (false, "Pipeline must have at least 2 nodes")
      return (true, "")

end Thirteen

/-!
## `src/utils/data_validation.py` — `validate_confusion_matrix` and
`validate_pairwise_similarity`

Both wrap their whole body in `try`/`except Exception`, so a Python
error inside the body is converted to `(False, wrapped message)`; the
functions themselves never raise.
-/

namespace DataValidation

/-- The `for val in row` loop of `validate_confusion_matrix`: values
must be numbers and non-negative.  No operation in it can raise. -/
def confusionValLoop : List JVal → Option (Bool × String)
  | [] => none
  | val :: rest =>
      if !isNum val then some (false, "Matrix values must be numbers")
      else if toRat val < 0 then some (false, "Matrix values must be non-negative")
      else confusionValLoop rest

/-- The `for row in matrix` loop of `validate_confusion_matrix`: each
row must have as many entries as there are classes (`len` and iteration
can raise on a malformed row). -/
def confusionRowLoop (nClasses : Nat) : List JVal → Except PyErr (Option (Bool × String))
  | [] => .ok none
  | row :: rest => do
      let rl ← pyLen row
      if rl != nClasses then return some (false, "Matrix must be square")
      let vals ← pyIter row
      match confusionValLoop vals with
      | some r => return some r
      | none => confusionRowLoop nClasses rest

/-- The body of `validate_confusion_matrix` (inside its `try`). -/
def confusionBody (data : JVal) : Except PyErr (Bool × String) := do
  if !data.isObj then return (false, "Data must be a dictionary")
  let hasC ← pyContains (.jstr "classes") data
  if !hasC then return (false, "Data must contain 'classes' and 'matrix' keys")
  let hasM ← pyContains (.jstr "matrix") data
  if !hasM then return (false, "Data must contain 'classes' and 'matrix' keys")
  let classes ← pySubscr data (.jstr "classes")
  let matrix ← pySubscr data (.jstr "matrix")
  if !classes.isList then return (false, "Classes must be a list")
  let nc ← pyLen classes
  if nc < 2 then return (false, "Must have at least 2 classes")
  if !matrix.isList then return (false, "Matrix must be a list")
  let nm ← pyLen matrix
  if nc != nm then return (false, "Number of classes must match matrix dimensions")
  let rows ← pyIter matrix
  match ← confusionRowLoop nc rows with
  | some r => return r
  | none => return (true, "Valid confusion matrix data")

/-- `validate_confusion_matrix` of `src/utils/data_validation.py`: the
body under `except Exception as e: return False, f"Error validating
data: {str(e)}"`. -/
def validate_confusion_matrix (data : JVal) : Except PyErr (Bool × String) :=
  match confusionBody data with
  | .ok r => .ok r
  | .error e => .ok (false, "Error validating data: " ++ pyErrMsg e)

/-- The `for j, val in enumerate(row)` loop of
`validate_pairwise_similarity` at row index `i`: numeric check, range
check, symmetry check against `matrix[j][i]`, diagonal check. -/
def psValLoop (matrix : List JVal) (i : Nat) : List JVal → Nat → Except PyErr (Option (Bool × String))
  | [], _ => .ok none
  | val :: rest, j => do
      if !isNum val then
        return some (false, "Invalid value at position (" ++ toString i ++ "," ++ toString j
          ++ "): Expected a number, got " ++ pyTypeName val)
      if toRat val < 0 || 1 < toRat val then
        return some (false, "Invalid similarity value at position (" ++ toString i ++ ","
          ++ toString j ++ "): " ++ pyStr val ++ " - Must be between 0.0 and 1.0")
      let rowJ ← pySubscr (.jarr matrix) (.jint j)
      let mji ← pySubscr rowJ (.jint i)
      if !pyEq mji val then
        return some (false, "Matrix not symmetric: Value at (" ++ toString i ++ ","
          ++ toString j ++ ") differs from (" ++ toString j ++ "," ++ toString i ++ ")")
      if i == j && !pyEq val (.jfloat 1) then
        return some (false, "Invalid self-similarity at position (" ++ toString i ++ ","
          ++ toString i ++ "): Must be 1.0")
      psValLoop matrix i rest (j + 1)

/-- The `for i, row in enumerate(matrix)` loop of
`validate_pairwise_similarity`. -/
def psRowLoop (n : Nat) (matrix : List JVal) : List JVal → Nat → Except PyErr (Option (Bool × String))
  | [], _ => .ok none
  | row :: rest, i => do
      if !row.isList then return some (false, "Invalid matrix row " ++ toString i ++ ": Expected a list")
      let rl ← pyLen row
      if rl != n then
        return some (false, "Matrix row " ++ toString i ++ " dimension mismatch: Expected "
          ++ toString n ++ " columns, got " ++ toString rl)
      let vals ← pyIter row
      match ← psValLoop matrix i vals 0 with
      | some r => return some r
      | none => psRowLoop n matrix rest (i + 1)

/-- The body of `validate_pairwise_similarity` (inside its `try`). -/
def pairwiseBody (data : JVal) : Except PyErr (Bool × String) := do
  if !data.isObj then
    return (false, "Invalid data format: Expected a dictionary with 'samples' and 'matrix' keys")
  let hasS ← pyContains (.jstr "samples") data
  if !hasS then return (false, "Missing required keys: Both 'samples' and 'matrix' must be present")
  let hasM ← pyContains (.jstr "matrix") data
  if !hasM then return (false, "Missing required keys: Both 'samples' and 'matrix' must be present")
  let samples ← pySubscr data (.jstr "samples")
  let matrix ← pySubscr data (.jstr "matrix")
  if !samples.isList then
    return (false, "Invalid samples format: Expected a list of sample identifiers")
  let ns ← pyLen samples
  if ns < 2 then
    return (false, "Insufficient samples: Need at least 2 samples for meaningful comparison")
  let sampleElems ← pyIter samples
  let sset ← pySetOfList sampleElems
  if ns != sset.length then
    return (false, "Invalid samples: Contains duplicate sample identifiers")
  if !matrix.isList then return (false, "Invalid matrix format: Expected a list of lists")
  let nm ← pyLen matrix
  if nm != ns then
    return (false, "Matrix dimension mismatch: Expected " ++ toString ns ++ " rows, got " ++ toString nm)
  let rows ← pyIter matrix
  match ← psRowLoop ns rows rows 0 with
  | some r => return r
  | none => return (true, "Valid pairwise similarity data")

/-- `validate_pairwise_similarity` of `src/utils/data_validation.py`:
the body under `except Exception as e: return False, f"Unexpected error
during validation: {str(e)}"`. -/
def validate_pairwise_similarity (data : JVal) : Except PyErr (Bool × String) :=
  match pairwiseBody data with
  | .ok r => .ok r
  | .error e => .ok (false, "Unexpected error during validation: " ++ pyErrMsg e)

/-- `validate_json_structure` of `src/utils/data_validation.py`,
specialised to type-check predicates for the `isinstance` calls of its
`required_fields` values. -/
def validate_json_structure (data : JVal) (required_fields : List (String × (JVal → Bool))) : Bool :=
  match data with
  | .jobj kvs =>
      required_fields.all (fun fk =>
        match objLookup kvs fk.1 with
        | some v => fk.2 v
        | none => false)
  | _ => false

end DataValidation

/-!
## `src/pages/20_nested_feature_categories.py` — `validate_node`

A recursive error-list validator with no `try`/`except`: `node.get`
raises `AttributeError` on non-dict input and several interpolations
subscript `node['name']`/`node['count']`, which raise `KeyError` when
those keys are absent.
-/

/-- A value looked up in a JSON object is structurally smaller than the
field list (for the termination of `validate_node`). -/
theorem objLookup_sizeOf_lt {kvs : List (String × JVal)} {key : String} {v : JVal}
    (h : objLookup kvs key = some v) : sizeOf v < sizeOf kvs := by
  induction kvs with
  | nil => simp [objLookup] at h
  | cons kv rest ih =>
      obtain ⟨k, w⟩ := kv
      by_cases hk : (k == key) = true
      · simp only [objLookup, hk, if_pos] at h
        cases h
        simp
        omega
      · simp only [objLookup, hk, if_neg, Bool.false_eq_true, not_false_iff] at h
        have := ih h
        simp
        omega

namespace NestedFeature

mutual

/-- `validate_node` of `src/pages/20_nested_feature_categories.py`.
The first argument of `node.get` on a non-dict raises
`AttributeError`; on a dict, `node.get(k, d)` and `node[k]` are the
`objLookup` of the field list (the `.get`/subscript pairs on the same
key in the source read the same binding). -/
def validate_node (node : JVal) : Except PyErr (List String) :=
  match node with
  | .jobj kvs =>
      let nameV := (objLookup kvs "name").getD .jnull
      let errs1 : List String :=
        match nameV with
        | .jstr s => if (pyStrip s).isEmpty then ["Node must have a non-empty string name"] else []
        | _ => ["Node must have a non-empty string name"]
      let nameD := (objLookup kvs "name").getD (.jstr "Unknown")
      let countV := (objLookup kvs "count").getD .jnull
      let errs2 : List String :=
        match countV with
        | .jint n =>
            if n < 0 then ["Node '" ++ pyStr nameD ++ "' must have a non-negative integer count"]
            else []
        | .jbool _ => []
        | _ => ["Node '" ++ pyStr nameD ++ "' must have a non-negative integer count"]
      match hch : objLookup kvs "children" with
      | none => .ok (errs1 ++ errs2)
      | some (.jarr kids) => do
          let (cerrs, childCount) ← validateChildren (.jint 0) kids
          let countSub ←
            match objLookup kvs "count" with
            | some v => Except.ok v
            | none => Except.error (.keyError (pyRepr (.jstr "count")))
          let gt ← pyGtNum childCount countSub
          if gt then
            let nameSub ←
              match objLookup kvs "name" with
              | some v => Except.ok v
              | none => Except.error (.keyError (pyRepr (.jstr "name")))
            pure (errs1 ++ errs2 ++ cerrs ++
              ["Node '" ++ pyStr nameSub ++ "' count (" ++ pyStr countSub
                ++ ") is less than sum of children (" ++ pyStr childCount ++ ")"])
          else pure (errs1 ++ errs2 ++ cerrs)
      | some _ => do
          let nameSub ←
            match objLookup kvs "name" with
            | some v => Except.ok v
            | none => Except.error (.keyError (pyRepr (.jstr "name")))
          pure (errs1 ++ errs2 ++ ["Node '" ++ pyStr nameSub ++ "' children must be an array"])
  | _ => .error (.attributeError ("'" ++ pyTypeName node ++ "' object has no attribute 'get'"))
termination_by sizeOf node
decreasing_by
  have h1 := objLookup_sizeOf_lt hch
  simp at h1 ⊢
  omega

/-- The `for child in node['children']` loop of `validate_node`:
extends the error list with the child's errors and accumulates
`child_count += child.get('count', 0)` left to right. -/
def validateChildren (acc : JVal) : List JVal → Except PyErr (List String × JVal)
  | [] => .ok ([], acc)
  | child :: rest => do
      let es ← validate_node child
      let cv ← pyGet child "count" (.jint 0)
      let acc2 ← pyAddNum acc cv
      let (moreErrs, total) ← validateChildren acc2 rest
      return (es ++ moreErrs, total)
termination_by kids => sizeOf kids
decreasing_by
  all_goals simp
  all_goals omega

end

end NestedFeature

/-!
## `src/pages/12_Neural_Network_Topology.py` — `validate_neural_network_data`

Structural checks on layers and nodes, a sequentiality check on the set
of layer indices, input/output layer checks, then connection checks.
No `try`/`except`, so Python errors escape.
-/

namespace NeuralNetwork

/-- Assignment `d[k] = v` on the `node_layers` dict (`k` is hashable at
every call site: it was just added to the `node_ids` set). -/
def dictSet (d : List (JVal × JVal)) (k v : JVal) : List (JVal × JVal) :=
  match d with
  | [] => [(k, v)]
  | (k2, w) :: rest => if pyEq k2 k then (k2, v) :: rest else (k2, w) :: dictSet rest k v

/-- Lookup `d[k]` on the `node_layers` dict. -/
def dictGetItem (d : List (JVal × JVal)) (k : JVal) : Except PyErr JVal :=
  if pyHashable k then
    match d.find? (fun kv => pyEq kv.1 k) with
    | some kv => .ok kv.2
    | none => .error (.keyError (pyRepr k))
  else .error (.typeError "unhashable type")

/-- The `for node in layer["nodes"]` loop: id presence and global
uniqueness; records the node's layer index. -/
def nodesLoop (lidx : JVal) (nids : List JVal) (nlayers : List (JVal × JVal)) :
    List JVal → Except PyErr ((Bool × String) ⊕ (List JVal × List (JVal × JVal)))
  | [] => .ok (.inr (nids, nlayers))
  | node :: rest => do
      let hasId ← pyContains (.jstr "id") node
      if !hasId then return .inl (false, "Each node must have an id")
      let idv ← pySubscr node (.jstr "id")
      let seen ← pySetContains nids idv
      if seen then return .inl (false, "Duplicate node id found: " ++ pyStr idv)
      let nids2 ← pySetAdd nids idv
      let nlayers2 := dictSet nlayers idv lidx
      nodesLoop lidx nids2 nlayers2 rest

/-- The `for layer in data["layers"]` loop: numeric fresh `layerIndex`
(the set of indices is modelled by their exact numeric values, as
Python number hashing does), valid `layerType`, a non-empty `nodes`
list, and the node loop. -/
def layerLoop (li : List Rat) (nids : List JVal) (nlayers : List (JVal × JVal)) :
    List JVal → Except PyErr ((Bool × String) ⊕ (List Rat × List JVal × List (JVal × JVal)))
  | [] => .ok (.inr (li, nids, nlayers))
  | layer :: rest => do
      let lidxV ← pyGet layer "layerIndex" .jnull
      if !isNum lidxV then return .inl (false, "Each layer must have a numeric layerIndex")
      let lidx ← pySubscr layer (.jstr "layerIndex")
      if li.contains (toRat lidx) then
        return .inl (false, "Duplicate layer index found: " ++ pyStr lidx)
      let li2 := li ++ [toRat lidx]
      let ltype ← pyGet layer "layerType" (.jstr "hidden")
      let typeOk := pyEq ltype (.jstr "input") || pyEq ltype (.jstr "hidden")
        || pyEq ltype (.jstr "output")
      if !typeOk then return .inl (false, "Invalid layer type: " ++ pyStr ltype)
      let nodesV ← pyGet layer "nodes" .jnull
      if !nodesV.isList then return .inl (false, "Each layer must have a nodes array")
      let nodesSub ← pySubscr layer (.jstr "nodes")
      if !pyTruthy nodesSub then return .inl (false, "Layer " ++ pyStr lidx ++ " has no nodes")
      let nodeElems ← pyIter nodesSub
      match ← nodesLoop lidx nids nlayers nodeElems with
      | .inl r => return .inl r
      | .inr (nids2, nlayers2) => layerLoop li2 nids2 nlayers2 rest

/-- Python set equality `layer_indices == set(range(n))` over the exact
numeric values. -/
def setEqRange (s : List Rat) (n : Nat) : Bool :=
  ((List.range n).all (fun k => s.contains ((k : Nat) : Rat)))
    && (s.all (fun q => (List.range n).any (fun k => q == ((k : Nat) : Rat))))

/-- `next((l for l in layers if l.get("layerType") == t), None)`. -/
def findLayer (t : String) : List JVal → Except PyErr (Option JVal)
  | [] => .ok none
  | l :: rest => do
      let lt ← pyGet l "layerType" .jnull
      if pyEq lt (.jstr t) then return some l
      findLayer t rest

/-- The `for conn in data["connections"]` loop: key presence, endpoint
resolution, strictly increasing layer order, numeric weight. -/
def connLoop (nids : List JVal) (nlayers : List (JVal × JVal)) :
    List JVal → Except PyErr (Option (Bool × String))
  | [] => .ok none
  | conn :: rest => do
      let hasS ← pyContains (.jstr "source") conn
      if !hasS then return some (false, "Each connection must have source and target")
      let hasT ← pyContains (.jstr "target") conn
      if !hasT then return some (false, "Each connection must have source and target")
      let sv ← pySubscr conn (.jstr "source")
      let sMem ← pySetContains nids sv
      if !sMem then return some (false, "Invalid source node id: " ++ pyStr sv)
      let tv ← pySubscr conn (.jstr "target")
      let tMem ← pySetContains nids tv
      if !tMem then return some (false, "Invalid target node id: " ++ pyStr tv)
      let sl ← dictGetItem nlayers sv
      let tl ← dictGetItem nlayers tv
      let ge ← pyGeNum sl tl
      if ge then
        return some (false, "Invalid connection: source layer (" ++ pyStr sl
          ++ ") must be before target layer (" ++ pyStr tl ++ ")")
      let hasW ← pyContains (.jstr "weight") conn
      if hasW then
        let wv ← pySubscr conn (.jstr "weight")
        if !isNum wv then return some (false, "Connection weight must be numeric")
      connLoop nids nlayers rest

/-- `validate_neural_network_data` of
`src/pages/12_Neural_Network_Topology.py`. -/
def validate_neural_network_data (data : JVal) : Except PyErr (Bool × String) := do
  if !DataValidation.validate_json_structure data
      [("layers", JVal.isList), ("connections", JVal.isList)] then
    return (false, "Data must contain 'layers' and 'connections' arrays")
  let layers ← pySubscr data (.jstr "layers")
  let nLayers ← pyLen layers
  if nLayers < 2 then
    return (false, "Network must have at least 2 layers (input and output)")
  let layerElems ← pyIter layers
  match ← layerLoop [] [] [] layerElems with
  | .inl r => return r
  | .inr (li, nids, nlayers) =>
    if !setEqRange li li.length then
      return (false, "Layer indices must be sequential starting from 0")
    let inputLayer ← findLayer "input" layerElems
    let outputLayer ← findLayer "output" layerElems
    if !pyTruthy (inputLayer.getD .jnull) then
      return (false, "Network must have an input layer")
    if !pyTruthy (outputLayer.getD .jnull) then
      return (false, "Network must have an output layer")
    let ilIdx ← pySubscr (inputLayer.getD .jnull) (.jstr "layerIndex")
    if !pyEq ilIdx (.jint 0) then return (false, "Input layer must have index 0")
    let olIdx ← pySubscr (outputLayer.getD .jnull) (.jstr "layerIndex")
    if !pyEq olIdx (.jint ((li.length : Int) - 1)) then
      return (false, "Output layer must be the last layer")
    let conns ← pySubscr data (.jstr "connections")
    let connElems ← pyIter conns
    match ← connLoop nids nlayers connElems with
    | some r => return r
    | none => return (true, "Data validation successful")

end NeuralNetwork

/-!
## Helper lemmas
-/

theorem isPrefixChars_append (sub s : List Char) : isPrefixChars sub (sub ++ s) = true := by
  induction sub with
  | nil => rfl
  | cons c cs ih => simp [isPrefixChars, ih]

theorem containsChars_append (p sub s : List Char) :
    containsChars (p ++ (sub ++ s)) sub = true := by
  induction p with
  | nil =>
      cases sub with
      | nil =>
          cases s with
          | nil => rfl
          | cons c s2 => simp [containsChars, isPrefixChars]
      | cons c cs =>
          simp only [containsChars, List.nil_append, Bool.or_eq_true]
          exact Or.inl (by simpa using isPrefixChars_append (c :: cs) s)
  | cons c p2 ih => simp [containsChars, ih]

/-- A string visibly built around `sub` contains `sub`. -/
theorem strContains_of_append (p sub s : String) : strContains (p ++ sub ++ s) sub = true := by
  have h : (p ++ sub ++ s).toList = p.toList ++ (sub.toList ++ s.toList) := by
    simp [String.toList]
  rw [strContains, h]
  exact containsChars_append p.toList sub.toList s.toList

/-- On numbers, Python `==` is numeric-value equality. -/
theorem pyEq_num (a b : JVal) (ha : isNum a = true) (hb : isNum b = true) :
    pyEq a b = (toRat a == toRat b) := by
  unfold pyEq
  simp [ha, hb]

namespace DataValidation

theorem confusionValLoop_ok (vs : List JVal)
    (h : ∀ v ∈ vs, isNum v = true ∧ 0 ≤ toRat v) :
    confusionValLoop vs = none := by
  induction vs with
  | nil => rfl
  | cons v rest ih =>
      obtain ⟨hn, hge⟩ := h v (List.mem_cons_self v rest)
      have hlt : ¬ toRat v < 0 := not_lt.mpr hge
      simp [confusionValLoop, hn, hlt]
      exact ih (fun w hw => h w (List.mem_cons_of_mem v hw))

theorem confusionRowLoop_ok (n : Nat) (rows : List JVal)
    (h : ∀ row ∈ rows, ∃ vs : List JVal, row = .jarr vs ∧ vs.length = n ∧
        ∀ v ∈ vs, isNum v = true ∧ 0 ≤ toRat v) :
    confusionRowLoop n rows = .ok none := by
  induction rows with
  | nil => rfl
  | cons row rest ih =>
      obtain ⟨vs, rfl, hlen, hvals⟩ := h row (List.mem_cons_self row rest)
      simp [confusionRowLoop, pyLen, hlen, pyIter, bind, Except.bind, pure, Except.pure, confusionValLoop_ok vs hvals]
      exact ih (fun r hr => h r (List.mem_cons_of_mem _ hr))

end DataValidation

/-- Claim C3: for every dict whose `classes` is a list of at least two
entries and whose `matrix` is a square list of rows of matching
dimension holding only non-negative numbers, `validate_confusion_matrix`
returns the valid verdict `(True, "Valid confusion matrix data")`. -/
theorem claim_C3 (kvs : List (String × JVal)) (cs rows : List JVal)
    (hc : objLookup kvs "classes" = some (.jarr cs))
    (hm : objLookup kvs "matrix" = some (.jarr rows))
    (h2 : 2 ≤ cs.length)
    (hdim : rows.length = cs.length)
    (hrows : ∀ row ∈ rows, ∃ vs : List JVal, row = .jarr vs ∧ vs.length = cs.length ∧
        ∀ v ∈ vs, isNum v = true ∧ 0 ≤ toRat v) :
    DataValidation.validate_confusion_matrix (.jobj kvs) = .ok (true, "Valid confusion matrix data") := by
  have hloop := DataValidation.confusionRowLoop_ok cs.length rows hrows
  have h2' : ¬ cs.length < 2 := not_lt.mpr h2
  simp [DataValidation.validate_confusion_matrix, DataValidation.confusionBody,
    JVal.isObj, pyContains, pyHashable, pySubscr, pyLen, pyIter, hc, hm, hdim, h2', hloop,
    bind, Except.bind, pure, Except.pure, JVal.isList]

/-- Claim C3 witness: the spec's example
`{"classes": ["A","B"], "matrix": [[5,1],[2,6]]}` is accepted. -/
theorem claim_C3_witness :
    DataValidation.validate_confusion_matrix
      (.jobj [("classes", .jarr [.jstr "A", .jstr "B"]),
              ("matrix", .jarr [.jarr [.jint 5, .jint 1], .jarr [.jint 2, .jint 6]])])
      = .ok (true, "Valid confusion matrix data") :=
  claim_C3 _ _ _ rfl rfl (by decide) (by decide)
    (by
      intro row hrow
      simp only [List.mem_cons, List.not_mem_nil, or_false] at hrow
      rcases hrow with h | h <;> subst h
      · exact ⟨[.jint 5, .jint 1], rfl, by decide, by decide⟩
      · exact ⟨[.jint 2, .jint 6], rfl, by decide, by decide⟩)

/-- Claim C10: any input dict whose `classes` value is a list with
fewer than two entries is rejected with the exact message
`"Must have at least 2 classes"`, whatever the matrix looks like. -/
theorem claim_C10 (kvs : List (String × JVal)) (cs : List JVal) (m : JVal)
    (hc : objLookup kvs "classes" = some (.jarr cs))
    (hm : objLookup kvs "matrix" = some m)
    (hlen : cs.length < 2) :
    DataValidation.validate_confusion_matrix (.jobj kvs) = .ok (false, "Must have at least 2 classes") := by
  simp [DataValidation.validate_confusion_matrix, DataValidation.confusionBody,
    JVal.isObj, pyContains, pyHashable, pySubscr, pyLen, hc, hm, hlen,
    bind, Except.bind, pure, Except.pure, JVal.isList]

/-- Claim C10 witness: a 1x1 confusion matrix with a non-negative
numeric entry is still rejected. -/
theorem claim_C10_witness :
    DataValidation.validate_confusion_matrix
      (.jobj [("classes", .jarr [.jstr "A"]), ("matrix", .jarr [.jarr [.jint 1]])])
      = .ok (false, "Must have at least 2 classes") :=
  claim_C10 _ _ _ rfl rfl (by decide)

/-- Claim C1 counterexample: `validate_pipeline_data` of
`13_Data_Pipeline_Flow.py` raises `ValueError` on a malformed (list)
input instead of returning a negative verdict, so the validator family
does not uniformly translate malformed input into negative results. -/
theorem claim_C1_counterexample :
    File13.validate_pipeline_data (.jarr []) = .error (.valueError "Data must be a dictionary") := by
  rfl

/-- Claim C1 (amended): the `try`/`except Exception`-wrapped validators
of `utils/data_validation.py` (`validate_confusion_matrix`,
`validate_pairwise_similarity`) never let an exception escape for any
input, but `13_Data_Pipeline_Flow.validate_pipeline_data` raises
`ValueError` on malformed input by design, and `validate_node` and
`validate_knowledge_graph_data` have no exception barrier and raise on
inputs such as a non-dict node (`AttributeError`, `TypeError`). -/
theorem claim_C1_amended :
    (∀ d, ∃ r, DataValidation.validate_confusion_matrix d = .ok r)
    ∧ (∀ d, ∃ r, DataValidation.validate_pairwise_similarity d = .ok r)
    ∧ File13.validate_pipeline_data (.jarr []) = .error (.valueError "Data must be a dictionary")
    ∧ NestedFeature.validate_node (.jint 5)
        = .error (.attributeError "'int' object has no attribute 'get'")
    ∧ KnowledgeGraph.validate_knowledge_graph_data
        (.jobj [("nodes", .jarr [.jint 0]), ("links", .jarr [])])
        = .error (.typeError "argument is not iterable") := by
  refine ⟨fun d => ?_, fun d => ?_, rfl, ?_, rfl⟩
  · unfold DataValidation.validate_confusion_matrix
    cases DataValidation.confusionBody d with
    | ok r => exact ⟨r, rfl⟩
    | error e => exact ⟨_, rfl⟩
  · unfold DataValidation.validate_pairwise_similarity
    cases DataValidation.pairwiseBody d with
    | ok r => exact ⟨r, rfl⟩
    | error e => exact ⟨_, rfl⟩
  · rw [NestedFeature.validate_node]
    · rfl
    · intro fields h
      exact JVal.noConfusion h

/-!
No primitive Python operation raises `ValueError`; only the explicit
`raise ValueError(...)` statements of the pipeline validators do.  The
following lemmas record that, so that the error-convention equivalence
between the pipeline validators can convert exactly the `ValueError`s.
-/

theorem ite_ne_ve {α : Type} {c : Prop} [Decidable c] (a b : Except PyErr α) (m : String)
    (ha : a ≠ .error (.valueError m)) (hb : b ≠ .error (.valueError m)) :
    (if c then a else b) ≠ .error (.valueError m) := by
  split <;> assumption

theorem listIndex_not_ve (xs : List JVal) (n : Int) (m : String) :
    listIndex xs n ≠ .error (.valueError m) :=
  ite_ne_ve _ _ _ (by simp) (by simp)

theorem strIndex_not_ve (s : String) (n : Int) (m : String) :
    strIndex s n ≠ .error (.valueError m) :=
  ite_ne_ve _ _ _ (by simp) (by simp)

theorem pySubscr_not_ve (c item : JVal) (m : String) :
    pySubscr c item ≠ .error (.valueError m) := by
  unfold pySubscr
  cases c <;> cases item <;>
    simp [pyHashable, listIndex_not_ve, strIndex_not_ve] <;>
    (try split) <;> simp

theorem pyContains_not_ve (item c : JVal) (m : String) :
    pyContains item c ≠ .error (.valueError m) := by
  unfold pyContains
  cases c <;> cases item <;> simp [pyHashable]

theorem pySetContains_not_ve (s : List JVal) (x : JVal) (m : String) :
    pySetContains s x ≠ .error (.valueError m) := by
  unfold pySetContains
  split <;> simp

theorem pySetAdd_not_ve (s : List JVal) (x : JVal) (m : String) :
    pySetAdd s x ≠ .error (.valueError m) := by
  unfold pySetAdd
  split <;> simp

theorem pyLen_not_ve (v : JVal) (m : String) :
    pyLen v ≠ .error (.valueError m) := by
  cases v <;> simp [pyLen]

theorem pyIter_not_ve (v : JVal) (m : String) :
    pyIter v ≠ .error (.valueError m) := by
  cases v <;> simp [pyIter]

/-- The `thirteen_` node loop is the `13_`/`page13_` node loop with
raised `ValueError`s turned into early `(False, message)` returns. -/
theorem thirteen_nodeLoop_eq (ns : List JVal) : ∀ ids,
    Thirteen.nodeLoop ids ns =
      match PipelineFlow.nodeLoop ids ns with
      | .ok ids2 => .ok (.inr ids2)
      | .error (.valueError m) => .ok (.inl (false, m))
      | .error e => .error e := by
  induction ns with
  | nil => intro ids; rfl
  | cons n rest ih =>
      intro ids
      simp only [Thirteen.nodeLoop, PipelineFlow.nodeLoop, bind, Except.bind]
      cases h1 : pyContains (.jstr "id") n with
      | error e => cases e <;> (try rfl) <;> exact absurd h1 (pyContains_not_ve _ _ _)
      | ok hasId =>
          cases hasId with
          | false => rfl
          | true =>
              cases h2 : pyContains (.jstr "name") n with
              | error e => cases e <;> (try rfl) <;> exact absurd h2 (pyContains_not_ve _ _ _)
              | ok hasName =>
                  cases hasName with
                  | false => rfl
                  | true =>
                      cases h3 : pySubscr n (.jstr "id") with
                      | error e => cases e <;> (try rfl) <;> exact absurd h3 (pySubscr_not_ve _ _ _)
                      | ok idv =>
                          cases hid : isInt idv with
                          | false => simp only [hid]; rfl
                          | true =>
                              simp only [hid]
                              cases h4 : pySetContains ids idv with
                              | error e => cases e <;> (try rfl) <;> exact absurd h4 (pySetContains_not_ve _ _ _)
                              | ok seen =>
                                  cases seen with
                                  | true => rfl
                                  | false =>
                                      cases h5 : pySetAdd ids idv with
                                      | error e => cases e <;> (try rfl) <;> exact absurd h5 (pySetAdd_not_ve _ _ _)
                                      | ok ids2 =>
                                          simp only [Bool.not_false, Bool.not_true]
                                          exact ih ids2

/-- The `thirteen_` link loop is the `13_`/`page13_` link loop with
raised `ValueError`s turned into early `(False, message)` returns. -/
theorem thirteen_linkLoop_eq (ls : List JVal) : ∀ ids,
    Thirteen.linkLoop ids ls =
      match PipelineFlow.linkLoop ids ls with
      | .ok _ => .ok none
      | .error (.valueError m) => .ok (some (false, m))
      | .error e => .error e := by
  induction ls with
  | nil => intro ids; rfl
  | cons l rest ih =>
      intro ids
      simp only [Thirteen.linkLoop, PipelineFlow.linkLoop, bind, Except.bind]
      cases h1 : pyContains (.jstr "source") l with
      | error e => cases e <;> (try rfl) <;> exact absurd h1 (pyContains_not_ve _ _ _)
      | ok hasS =>
          try dsimp only
          cases hasS with
          | false => rfl
          | true =>
              try dsimp only
              cases h2 : pyContains (.jstr "target") l with
              | error e => cases e <;> (try rfl) <;> exact absurd h2 (pyContains_not_ve _ _ _)
              | ok hasT =>
                  try dsimp only
                  cases hasT with
                  | false => rfl
                  | true =>
                      try dsimp only
                      cases h3 : pyContains (.jstr "value") l with
                      | error e => cases e <;> (try rfl) <;> exact absurd h3 (pyContains_not_ve _ _ _)
                      | ok hasV =>
                          try dsimp only
                          cases hasV with
                          | false => rfl
                          | true =>
                              try dsimp only
                              cases h4 : pySubscr l (.jstr "source") with
                              | error e => cases e <;> (try rfl) <;> exact absurd h4 (pySubscr_not_ve _ _ _)
                              | ok sv =>
                                  try dsimp only
                                  cases h5 : pySetContains ids sv with
                                  | error e => cases e <;> (try rfl) <;> exact absurd h5 (pySetContains_not_ve _ _ _)
                                  | ok sMem =>
                                      try dsimp only
                                      cases sMem with
                                      | false => rfl
                                      | true =>
                                          try dsimp only
                                          cases h6 : pySubscr l (.jstr "target") with
                                          | error e => cases e <;> (try rfl) <;> exact absurd h6 (pySubscr_not_ve _ _ _)
                                          | ok tv =>
                                              try dsimp only
                                              cases h7 : pySetContains ids tv with
                                              | error e => cases e <;> (try rfl) <;> exact absurd h7 (pySetContains_not_ve _ _ _)
                                              | ok tMem =>
                                                  try dsimp only
                                                  cases tMem with
                                                  | false => rfl
                                                  | true =>
                                                      try dsimp only
                                                      cases h8 : pySubscr l (.jstr "value") with
                                                      | error e => cases e <;> (try rfl) <;> exact absurd h8 (pySubscr_not_ve _ _ _)
                                                      | ok vv =>
                                                          try dsimp only
                                                          cases hnum : isNum vv with
                                                          | false =>
                                                              try simp only [hnum]
                                                              rfl
                                                          | true =>
                                                              try dsimp only
                                                              try simp only [hnum]
                                                              cases hneg : decide (toRat vv < 0) with
                                                              | true =>
                                                                  have h9 := of_decide_eq_true hneg
                                                                  simp [h9, pure, Except.pure]
                                                              | false =>
                                                                  have h9 := of_decide_eq_false hneg
                                                                  simp [h9, pure, Except.pure]
                                                                  exact ih ids

/-- `thirteen_Data_Pipeline_Flow.validate_pipeline_data` computes the
same result as `page13_Data_Pipeline_Flow.validate_pipeline_data` on
every input: the direct `(False, message)` returns coincide with
raising `ValueError` and converting it at the boundary. -/
theorem thirteen_validate_eq (d : JVal) :
    Thirteen.validate_pipeline_data d = Page13.validate_pipeline_data d := by
  unfold Thirteen.validate_pipeline_data Page13.validate_pipeline_data PipelineFlow.body
  cases hobj : d.isObj with
  | false => rfl
  | true =>
      simp only [hobj]
      try dsimp only [bind, Except.bind, pure, Except.pure]
      cases h1 : pyContains (.jstr "nodes") d with
      | error e => cases e <;> (try rfl) <;> exact absurd h1 (pyContains_not_ve _ _ _)
      | ok hasN =>
          try dsimp only [bind, Except.bind, pure, Except.pure]
          cases hasN with
          | false => rfl
          | true =>
              try dsimp only [bind, Except.bind, pure, Except.pure]
              cases h2 : pyContains (.jstr "links") d with
              | error e => cases e <;> (try rfl) <;> exact absurd h2 (pyContains_not_ve _ _ _)
              | ok hasL =>
                  try dsimp only [bind, Except.bind, pure, Except.pure]
                  cases hasL with
                  | false => rfl
                  | true =>
                      try dsimp only [bind, Except.bind, pure, Except.pure]
                      cases h3 : pySubscr d (.jstr "nodes") with
                      | error e => cases e <;> (try rfl) <;> exact absurd h3 (pySubscr_not_ve _ _ _)
                      | ok nodes =>
                          try dsimp only [bind, Except.bind, pure, Except.pure]
                          cases h4 : pyIter nodes with
                          | error e => cases e <;> (try rfl) <;> exact absurd h4 (pyIter_not_ve _ _)
                          | ok nodeElems =>
                              try dsimp only [bind, Except.bind, pure, Except.pure]
                              rw [thirteen_nodeLoop_eq]
                              cases h5 : PipelineFlow.nodeLoop [] nodeElems with
                              | error e => cases e <;> rfl
                              | ok ids =>
                                  try dsimp only [bind, Except.bind, pure, Except.pure]
                                  cases h6 : pySubscr d (.jstr "links") with
                                  | error e => cases e <;> (try rfl) <;> exact absurd h6 (pySubscr_not_ve _ _ _)
                                  | ok links =>
                                      try dsimp only [bind, Except.bind, pure, Except.pure]
                                      cases h7 : pyIter links with
                                      | error e => cases e <;> (try rfl) <;> exact absurd h7 (pyIter_not_ve _ _)
                                      | ok linkElems =>
                                          try dsimp only [bind, Except.bind, pure, Except.pure]
                                          rw [thirteen_linkLoop_eq]
                                          cases h8 : PipelineFlow.linkLoop ids linkElems with
                                          | error e => cases e <;> rfl
                                          | ok u =>
                                              try dsimp only [bind, Except.bind, pure, Except.pure]
                                              cases h10 : pyLen nodes with
                                                  | error e => cases e <;> (try rfl) <;> exact absurd h10 (pyLen_not_ve _ _)
                                                  | ok n =>
                                                      try dsimp only [bind, Except.bind, pure, Except.pure]
                                                      by_cases hn : n < 2
                                                      · simp [hn, pure, Except.pure]
                                                      · simp [hn, pure, Except.pure]

/-- Claim C2: the three pipeline-flow validators agree on validity for
every JSON-decoded input — `thirteen_` returns a tuple with first
component `True` exactly when `page13_` does, and exactly when `13_`
returns `True` without raising; they differ only in error-reporting
convention. -/
theorem claim_C2 (d : JVal) :
    ((∃ m, Thirteen.validate_pipeline_data d = .ok (true, m))
      ↔ (∃ m, Page13.validate_pipeline_data d = .ok (true, m)))
    ∧ ((∃ m, Page13.validate_pipeline_data d = .ok (true, m))
      ↔ File13.validate_pipeline_data d = .ok true) := by
  constructor
  · rw [thirteen_validate_eq]
  · unfold Page13.validate_pipeline_data File13.validate_pipeline_data
    cases PipelineFlow.body d with
    | ok u => simp
    | error e => cases e <;> simp

/-!
## Duplicate node ids in the pipeline-flow validators (claim C5)
-/

/-- Python `==` on two ints is integer equality. -/
theorem pyEq_jint (a b : Int) : pyEq (.jint a) (.jint b) = (a == b) := by
  unfold pyEq
  simp only [isNum, Bool.and_self, if_pos, toRat]
  by_cases h : a = b
  · subst h; simp
  · simp [h, fun hq => h (Int.cast_injective hq)]

/-- Set membership of an int id in a set of int ids. -/
theorem any_pyEq_jint (acc : List Int) (k : Int) :
    ((acc.map JVal.jint).any (fun y => pyEq y (.jint k))) = decide (k ∈ acc) := by
  induction acc with
  | nil => rfl
  | cons a rest ih =>
      simp only [List.map_cons, List.any_cons, ih, pyEq_jint]
      by_cases h : a = k
      · subst h; simp
      · simp [h, Ne.symm h]

/-- A pipeline node that passes the per-node checks: a dict with an
integer `id` and some `name`. -/
def wfPipelineNode (n : JVal) : Prop :=
  ∃ kvs k, n = JVal.jobj kvs ∧ objLookup kvs "id" = some (.jint k)
    ∧ (objLookup kvs "name").isSome = true

/-- The integer ids of a list of well-formed pipeline nodes. -/
def pipelineIds (ns : List JVal) : List Int :=
  ns.filterMap (fun n =>
    match n with
    | .jobj kvs =>
        match objLookup kvs "id" with
        | some (.jint k) => some k
        | _ => none
    | _ => none)

/-- If the accumulated id set is duplicate-free but the ids to come
collide with it or among themselves, the shared pipeline node loop
raises `ValueError("Node IDs must be unique")`. -/
theorem nodeLoop_dup (ns : List JVal) : ∀ acc : List Int,
    (∀ n ∈ ns, wfPipelineNode n) → acc.Nodup → ¬ (acc ++ pipelineIds ns).Nodup →
    PipelineFlow.nodeLoop (acc.map .jint) ns = .error (.valueError "Node IDs must be unique") := by
  induction ns with
  | nil =>
      intro acc _ hnd hdup
      simp [pipelineIds] at hdup
      exact absurd hnd hdup
  | cons n rest ih =>
      intro acc hwf hnd hdup
      obtain ⟨kvs, k, rfl, hid, hname⟩ := hwf n (List.mem_cons_self n rest)
      have hids : pipelineIds (JVal.jobj kvs :: rest) = k :: pipelineIds rest := by
        simp [pipelineIds, hid]
      rw [hids] at hdup
      simp [PipelineFlow.nodeLoop, bind, Except.bind, pyContains, pyHashable, pySubscr,
        hid, hname, pySetContains, pySetAdd, isInt, any_pyEq_jint, pure, Except.pure]
      by_cases hk : k ∈ acc
      · simp [hk]
      · intro _
        rw [if_neg hk]
        have hrw : List.map JVal.jint acc ++ [JVal.jint k] = List.map JVal.jint (acc ++ [k]) := by
          simp
        rw [hrw]
        have hnd2 : (acc ++ [k]).Nodup := by
          simp [List.nodup_append, hnd, hk]
        have hdup2 : ¬ ((acc ++ [k]) ++ pipelineIds rest).Nodup := by
          rw [List.append_assoc, List.singleton_append]
          exact hdup
        exact ih (acc ++ [k]) (fun m hm => hwf m (List.mem_cons_of_mem _ hm)) hnd2 hdup2

/-- Claim C5: a pipeline-flow input whose nodes (dicts with integer
`id` and a `name`) contain two nodes with the same id is rejected: the
tuple-returning validator returns `(False, "Node IDs must be unique")`
(a message containing the word "unique"), and the `13_` variant raises
`ValueError` with the same message. -/
theorem claim_C5 (kvs : List (String × JVal)) (ns : List JVal) (lv : JVal)
    (hn : objLookup kvs "nodes" = some (.jarr ns))
    (hl : objLookup kvs "links" = some lv)
    (hwf : ∀ n ∈ ns, wfPipelineNode n)
    (hdup : ¬ (pipelineIds ns).Nodup) :
    Thirteen.validate_pipeline_data (.jobj kvs) = .ok (false, "Node IDs must be unique")
    ∧ File13.validate_pipeline_data (.jobj kvs) = .error (.valueError "Node IDs must be unique")
    ∧ strContains "Node IDs must be unique" "unique" = true := by
  have hloop : PipelineFlow.nodeLoop [] ns = .error (.valueError "Node IDs must be unique") := by
    have := nodeLoop_dup ns [] hwf List.nodup_nil (by simpa using hdup)
    simpa using this
  refine ⟨?_, ?_, by decide⟩
  · rw [thirteen_validate_eq]
    simp [Page13.validate_pipeline_data, PipelineFlow.body, JVal.isObj, pyContains,
      pyHashable, pySubscr, pyIter, hn, hl, hloop, bind, Except.bind, pure, Except.pure]
  · simp [File13.validate_pipeline_data, PipelineFlow.body, JVal.isObj, pyContains,
      pyHashable, pySubscr, pyIter, hn, hl, hloop, bind, Except.bind, pure, Except.pure]

/-- Claim C5 witness: two nodes with id 1 are rejected with the
uniqueness message by both validators. -/
theorem claim_C5_witness :
    Thirteen.validate_pipeline_data
      (.jobj [("nodes", .jarr [.jobj [("id", .jint 1), ("name", .jstr "a")],
                               .jobj [("id", .jint 1), ("name", .jstr "b")]]),
              ("links", .jarr [])])
      = .ok (false, "Node IDs must be unique")
    ∧ File13.validate_pipeline_data
      (.jobj [("nodes", .jarr [.jobj [("id", .jint 1), ("name", .jstr "a")],
                               .jobj [("id", .jint 1), ("name", .jstr "b")]]),
              ("links", .jarr [])])
      = .error (.valueError "Node IDs must be unique")
    ∧ strContains "Node IDs must be unique" "unique" = true :=
  claim_C5 _ _ _ rfl rfl
    (by
      intro n hn
      simp only [List.mem_cons, List.not_mem_nil, or_false] at hn
      rcases hn with h | h <;> subst h
      · exact ⟨_, 1, rfl, rfl, rfl⟩
      · exact ⟨_, 1, rfl, rfl, rfl⟩)
    (by simp [pipelineIds, objLookup])

/-!
## Dangling link endpoints (claim C4)
-/

/-- Membership of a value in a set of node ids (Python `v in node_ids`
once `v` is known hashable). -/
def memSet (ids : List JVal) (v : JVal) : Bool :=
  ids.any (fun y => pyEq y v)

/-- A knowledge-graph node that passes the per-node checks: a dict
with a hashable `id`. -/
def wfKgNode (n : JVal) : Prop :=
  ∃ nk idv, n = JVal.jobj nk ∧ objLookup nk "id" = some idv ∧ pyHashable idv = true

/-- The id values of a list of knowledge-graph nodes. -/
def kgIds (ns : List JVal) : List JVal :=
  ns.filterMap (fun n =>
    match n with
    | .jobj nk => objLookup nk "id"
    | _ => none)

/-- A knowledge-graph link that passes the key checks: a dict with
hashable `source` and `target` values. -/
def wfKgLink (l : JVal) : Prop :=
  ∃ lk sv tv, l = JVal.jobj lk ∧ objLookup lk "source" = some sv
    ∧ objLookup lk "target" = some tv ∧ pyHashable sv = true ∧ pyHashable tv = true

/-- A link with an endpoint that resolves to no node id. -/
def kgDangling (ids : List JVal) (l : JVal) : Prop :=
  ∃ lk sv tv, l = JVal.jobj lk ∧ objLookup lk "source" = some sv
    ∧ objLookup lk "target" = some tv
    ∧ (memSet ids sv = false ∨ memSet ids tv = false)

/-- `v` is the `source` or `target` value of link `l`. -/
def kgIsEndpoint (v l : JVal) : Prop :=
  ∃ lk, l = JVal.jobj lk
    ∧ (objLookup lk "source" = some v ∨ objLookup lk "target" = some v)

/-- The knowledge-graph node loop succeeds on well-formed nodes with
pairwise-distinct ids and returns the accumulated id set. -/
theorem kg_nodeLoop_ok (ns : List JVal) : ∀ acc : List JVal,
    (∀ n ∈ ns, wfKgNode n) →
    List.Pairwise (fun a b => pyEq a b = false) (acc ++ kgIds ns) →
    KnowledgeGraph.nodeLoop acc ns = .ok (.inr (acc ++ kgIds ns)) := by
  induction ns with
  | nil => intro acc _ _; simp [KnowledgeGraph.nodeLoop, kgIds]
  | cons n rest ih =>
      intro acc hwf hpw
      obtain ⟨nk, idv, rfl, hid, hh⟩ := hwf n (List.mem_cons_self n rest)
      have hids : kgIds (JVal.jobj nk :: rest) = idv :: kgIds rest := by
        simp [kgIds, hid]
      rw [hids] at hpw
      have hmem : acc.any (fun y => pyEq y idv) = false := by
        rw [List.any_eq_false]
        intro a ha
        have := (List.pairwise_append.mp hpw).2.2 a ha idv (List.mem_cons_self _ _)
        simp [this]
      have hstr : ∀ s : String, pyHashable (.jstr s) = true := fun s => rfl
      simp [KnowledgeGraph.nodeLoop, bind, Except.bind, pyContains, pySubscr,
        hid, hh, hstr, pySetContains, pySetAdd, hmem, pure, Except.pure, hids]
      have hpw2 : List.Pairwise (fun a b => pyEq a b = false) ((acc ++ [idv]) ++ kgIds rest) := by
        rw [List.append_assoc, List.singleton_append]
        exact hpw
      have := ih (acc ++ [idv]) (fun m hm => hwf m (List.mem_cons_of_mem _ hm)) hpw2
      rw [this]
      simp

/-- If some link dangles, the knowledge-graph link loop returns an
invalid verdict whose message interpolates a dangling endpoint value. -/
theorem kg_linkLoop_dangle (ls : List JVal) : ∀ ids : List JVal,
    (∀ l ∈ ls, wfKgLink l) →
    (∃ l ∈ ls, kgDangling ids l) →
    ∃ v msg, memSet ids v = false ∧ (∃ l ∈ ls, kgIsEndpoint v l)
      ∧ KnowledgeGraph.linkLoop ids ls = .ok (some (false, msg))
      ∧ strContains msg (pyStr v) = true := by
  induction ls with
  | nil =>
      intro ids _ hex
      simp at hex
  | cons l rest ih =>
      intro ids hwf hex
      obtain ⟨lk, sv, tv, rfl, hs, ht, hhs, hht⟩ := hwf l (List.mem_cons_self l rest)
      have hstr : ∀ s : String, pyHashable (.jstr s) = true := fun s => rfl
      cases hms : ids.any (fun y => pyEq y sv) with
      | false =>
          refine ⟨sv, "Link source '" ++ pyStr sv ++ "' not found in nodes",
            by simpa [memSet] using hms,
            ⟨.jobj lk, List.mem_cons_self _ _, ⟨lk, rfl, Or.inl hs⟩⟩, ?_, ?_⟩
          · simp [KnowledgeGraph.linkLoop, bind, Except.bind, pyContains, pySubscr,
              hs, ht, hhs, hht, hstr, pySetContains, hms, pure, Except.pure]
          · exact strContains_of_append "Link source '" (pyStr sv) "' not found in nodes"
      | true =>
          cases hmt : ids.any (fun y => pyEq y tv) with
          | false =>
              refine ⟨tv, "Link target '" ++ pyStr tv ++ "' not found in nodes",
                by simpa [memSet] using hmt,
                ⟨.jobj lk, List.mem_cons_self _ _, ⟨lk, rfl, Or.inr ht⟩⟩, ?_, ?_⟩
              · simp [KnowledgeGraph.linkLoop, bind, Except.bind, pyContains, pySubscr,
                  hs, ht, hhs, hht, hstr, pySetContains, hms, hmt, pure, Except.pure]
              · exact strContains_of_append "Link target '" (pyStr tv) "' not found in nodes"
          | true =>
              have hrest : ∃ l2 ∈ rest, kgDangling ids l2 := by
                obtain ⟨l2, hl2, hd⟩ := hex
                rcases List.mem_cons.mp hl2 with h | h
                · subst h
                  obtain ⟨lk2, sv2, tv2, heq, hs2, ht2, hbad⟩ := hd
                  cases heq
                  rw [hs] at hs2
                  rw [ht] at ht2
                  cases hs2
                  cases ht2
                  simp only [memSet] at hbad
                  rcases hbad with hb | hb
                  · rw [hms] at hb; cases hb
                  · rw [hmt] at hb; cases hb
                · exact ⟨l2, h, hd⟩
              obtain ⟨v, msg, hv, ⟨l2, hl2, hep⟩, hloop, hsub⟩ :=
                ih ids (fun m hm => hwf m (List.mem_cons_of_mem _ hm)) hrest
              refine ⟨v, msg, hv, ⟨l2, List.mem_cons_of_mem _ hl2, hep⟩, ?_, hsub⟩
              simp [KnowledgeGraph.linkLoop, bind, Except.bind, pyContains, pySubscr,
                hs, ht, hhs, hht, hstr, pySetContains, hms, hmt, pure, Except.pure, hloop]

/-- The shared pipeline node loop succeeds on well-formed nodes with
distinct ids and returns the accumulated id set. -/
theorem pipeline_nodeLoop_ok (ns : List JVal) : ∀ acc : List Int,
    (∀ n ∈ ns, wfPipelineNode n) → (acc ++ pipelineIds ns).Nodup →
    PipelineFlow.nodeLoop (acc.map .jint) ns = .ok ((acc ++ pipelineIds ns).map .jint) := by
  induction ns with
  | nil => intro acc _ _; simp [PipelineFlow.nodeLoop, pipelineIds]
  | cons n rest ih =>
      intro acc hwf hnd
      obtain ⟨kvs, k, rfl, hid, hname⟩ := hwf n (List.mem_cons_self n rest)
      have hids : pipelineIds (JVal.jobj kvs :: rest) = k :: pipelineIds rest := by
        simp [pipelineIds, hid]
      rw [hids] at hnd ⊢
      have hk : k ∉ acc := fun hmem =>
        (List.nodup_append.mp hnd).2.2 hmem (List.mem_cons_self _ _)
      simp [PipelineFlow.nodeLoop, bind, Except.bind, pyContains, pyHashable, pySubscr,
        hid, hname, pySetContains, pySetAdd, isInt, any_pyEq_jint, pure, Except.pure, hk]
      have hnd2 : ((acc ++ [k]) ++ pipelineIds rest).Nodup := by
        rw [List.append_assoc, List.singleton_append]
        exact hnd
      have hrw : List.map JVal.jint acc ++ [JVal.jint k] = List.map JVal.jint (acc ++ [k]) := by
        simp
      rw [hrw, ih (acc ++ [k]) (fun m hm => hwf m (List.mem_cons_of_mem _ hm)) hnd2]
      simp

/-- A pipeline link that passes the per-link checks: a dict with
hashable `source`/`target` and a non-negative numeric `value`. -/
def wfPipelineLink (l : JVal) : Prop :=
  ∃ lk sv tv vv, l = JVal.jobj lk ∧ objLookup lk "source" = some sv
    ∧ objLookup lk "target" = some tv ∧ objLookup lk "value" = some vv
    ∧ pyHashable sv = true ∧ pyHashable tv = true ∧ isNum vv = true ∧ 0 ≤ toRat vv

/-- A pipeline link with an endpoint that resolves to no node id. -/
def plDangling (ids : List JVal) (l : JVal) : Prop :=
  ∃ lk sv tv, l = JVal.jobj lk ∧ objLookup lk "source" = some sv
    ∧ objLookup lk "target" = some tv
    ∧ (memSet ids sv = false ∨ memSet ids tv = false)

/-- If some link dangles, the shared pipeline link loop raises
`ValueError` with the fixed (non-interpolated) endpoint message. -/
theorem pipeline_linkLoop_dangle (ls : List JVal) : ∀ ids : List JVal,
    (∀ l ∈ ls, wfPipelineLink l) →
    (∃ l ∈ ls, plDangling ids l) →
    PipelineFlow.linkLoop ids ls
      = .error (.valueError "Link source and target must reference valid node IDs") := by
  induction ls with
  | nil =>
      intro ids _ hex
      simp at hex
  | cons l rest ih =>
      intro ids hwf hex
      obtain ⟨lk, sv, tv, vv, rfl, hs, ht, hv, hhs, hht, hnum, hge⟩ :=
        hwf l (List.mem_cons_self l rest)
      have hstr : ∀ s : String, pyHashable (.jstr s) = true := fun s => rfl
      have hlt : ¬ toRat vv < 0 := not_lt.mpr hge
      cases hms : ids.any (fun y => pyEq y sv) with
      | false =>
          simp [PipelineFlow.linkLoop, bind, Except.bind, pyContains, pySubscr,
            hs, ht, hv, hhs, hht, hstr, pySetContains, hms, pure, Except.pure]
      | true =>
          cases hmt : ids.any (fun y => pyEq y tv) with
          | false =>
              simp [PipelineFlow.linkLoop, bind, Except.bind, pyContains, pySubscr,
                hs, ht, hv, hhs, hht, hstr, pySetContains, hms, hmt, pure, Except.pure]
          | true =>
              have hrest : ∃ l2 ∈ rest, plDangling ids l2 := by
                obtain ⟨l2, hl2, hd⟩ := hex
                rcases List.mem_cons.mp hl2 with h | h
                · subst h
                  obtain ⟨lk2, sv2, tv2, heq, hs2, ht2, hbad⟩ := hd
                  cases heq
                  rw [hs] at hs2
                  rw [ht] at ht2
                  cases hs2
                  cases ht2
                  simp only [memSet] at hbad
                  rcases hbad with hb | hb
                  · rw [hms] at hb; cases hb
                  · rw [hmt] at hb; cases hb
                · exact ⟨l2, h, hd⟩
              have := ih ids (fun m hm => hwf m (List.mem_cons_of_mem _ hm)) hrest
              simp [PipelineFlow.linkLoop, bind, Except.bind, pyContains, pySubscr,
                hs, ht, hv, hhs, hht, hstr, pySetContains, hms, hmt, hnum, hlt,
                pure, Except.pure, this]

/-- Claim C4 counterexample: on a pipeline input whose only link
targets the undeclared id 99, `thirteen_Data_Pipeline_Flow`'s
validator does return an invalid verdict, but its message is the fixed
string "Link source and target must reference valid node IDs", which
does not name the dangling endpoint 99. -/
theorem claim_C4_counterexample :
    Thirteen.validate_pipeline_data
      (.jobj [("nodes", .jarr [.jobj [("id", .jint 0), ("name", .jstr "a")],
                               .jobj [("id", .jint 1), ("name", .jstr "b")]]),
              ("links", .jarr [.jobj [("source", .jint 0), ("target", .jint 99),
                                      ("value", .jint 1)]])])
      = .ok (false, "Link source and target must reference valid node IDs")
    ∧ strContains "Link source and target must reference valid node IDs"
        (pyStr (.jint 99)) = false := by
  exact ⟨rfl, by decide⟩

/-- Claim C4 (amended): on a graph-shaped input whose nodes are
well-formed with distinct ids and whose links are well-formed, a link
endpoint resolving to no node id makes every validator in the family
return an invalid verdict; `validate_knowledge_graph_data`'s message
names a dangling endpoint value, while the pipeline-flow validators
report the fixed message "Link source and target must reference valid
node IDs" (raised as `ValueError` by the `13_` variant). -/
theorem claim_C4_amended :
    (∀ (kvs : List (String × JVal)) (ns ls : List JVal),
      objLookup kvs "nodes" = some (.jarr ns) →
      objLookup kvs "links" = some (.jarr ls) →
      (∀ n ∈ ns, wfKgNode n) →
      List.Pairwise (fun a b => pyEq a b = false) (kgIds ns) →
      (∀ l ∈ ls, wfKgLink l) →
      (∃ l ∈ ls, kgDangling (kgIds ns) l) →
      ∃ v msg, memSet (kgIds ns) v = false ∧ (∃ l ∈ ls, kgIsEndpoint v l)
        ∧ KnowledgeGraph.validate_knowledge_graph_data (.jobj kvs) = .ok (false, msg)
        ∧ strContains msg (pyStr v) = true)
    ∧ (∀ (kvs : List (String × JVal)) (ns ls : List JVal),
      objLookup kvs "nodes" = some (.jarr ns) →
      objLookup kvs "links" = some (.jarr ls) →
      (∀ n ∈ ns, wfPipelineNode n) →
      (pipelineIds ns).Nodup →
      (∀ l ∈ ls, wfPipelineLink l) →
      (∃ l ∈ ls, plDangling ((pipelineIds ns).map .jint) l) →
      Thirteen.validate_pipeline_data (.jobj kvs)
        = .ok (false, "Link source and target must reference valid node IDs")
      ∧ File13.validate_pipeline_data (.jobj kvs)
        = .error (.valueError "Link source and target must reference valid node IDs")) := by
  constructor
  · intro kvs ns ls hn hl hwfn hpw hwfl hex
    have hnl := kg_nodeLoop_ok ns [] hwfn (by simpa using hpw)
    simp only [List.nil_append] at hnl
    obtain ⟨v, msg, hv, hepl, hloop, hsub⟩ := kg_linkLoop_dangle ls (kgIds ns) hwfl hex
    refine ⟨v, msg, hv, hepl, ?_, hsub⟩
    simp [KnowledgeGraph.validate_knowledge_graph_data, JVal.isObj, pyContains, pyHashable,
      pySubscr, pyIter, hn, hl, hnl, hloop, bind, Except.bind, pure, Except.pure]
  · intro kvs ns ls hn hl hwfn hnd hwfl hex
    have hnl := pipeline_nodeLoop_ok ns [] hwfn (by simpa using hnd)
    simp only [List.nil_append, List.map_nil] at hnl
    have hll := pipeline_linkLoop_dangle ls ((pipelineIds ns).map .jint) hwfl hex
    constructor
    · rw [thirteen_validate_eq]
      simp [Page13.validate_pipeline_data, PipelineFlow.body, JVal.isObj, pyContains,
        pyHashable, pySubscr, pyIter, hn, hl, hnl, hll, bind, Except.bind, pure, Except.pure]
    · simp [File13.validate_pipeline_data, PipelineFlow.body, JVal.isObj, pyContains,
        pyHashable, pySubscr, pyIter, hn, hl, hnl, hll, bind, Except.bind, pure, Except.pure]

/-- The knowledge-graph input used to exercise claim C4: two nodes 0
and 1, one link from 0 to the undeclared id 99. -/
def kgCexNodes : List JVal := [.jobj [("id", .jint 0)], .jobj [("id", .jint 1)]]

/-- The dangling link of the C4 example. -/
def kgCexLinks : List JVal := [.jobj [("source", .jint 0), ("target", .jint 99)]]

/-- The pipeline input of the C4 example: two named nodes, one link to
the undeclared id 99. -/
def plCexNodes : List JVal :=
  [.jobj [("id", .jint 0), ("name", .jstr "a")], .jobj [("id", .jint 1), ("name", .jstr "b")]]

/-- The dangling pipeline link of the C4 example. -/
def plCexLinks : List JVal :=
  [.jobj [("source", .jint 0), ("target", .jint 99), ("value", .jint 1)]]

/-- Claim C4 witness: on the concrete dangling-link inputs, the
knowledge-graph validator rejects with a message naming a dangling
endpoint, and both pipeline validators reject with the fixed message. -/
theorem claim_C4_amended_witness :
    (∃ v msg, memSet (kgIds kgCexNodes) v = false
      ∧ (∃ l ∈ kgCexLinks, kgIsEndpoint v l)
      ∧ KnowledgeGraph.validate_knowledge_graph_data
          (.jobj [("nodes", .jarr kgCexNodes), ("links", .jarr kgCexLinks)])
          = .ok (false, msg)
      ∧ strContains msg (pyStr v) = true)
    ∧ Thirteen.validate_pipeline_data
        (.jobj [("nodes", .jarr plCexNodes), ("links", .jarr plCexLinks)])
        = .ok (false, "Link source and target must reference valid node IDs")
    ∧ File13.validate_pipeline_data
        (.jobj [("nodes", .jarr plCexNodes), ("links", .jarr plCexLinks)])
        = .error (.valueError "Link source and target must reference valid node IDs") := by
  have hkg := claim_C4_amended.1
    [("nodes", .jarr kgCexNodes), ("links", .jarr kgCexLinks)] kgCexNodes kgCexLinks rfl rfl
    (by
      intro n hn
      simp only [kgCexNodes, List.mem_cons, List.not_mem_nil, or_false] at hn
      rcases hn with h | h <;> subst h
      · exact ⟨_, .jint 0, rfl, rfl, rfl⟩
      · exact ⟨_, .jint 1, rfl, rfl, rfl⟩)
    (by
      refine List.Pairwise.cons (fun b hb => ?_)
        (List.Pairwise.cons (fun b hb => ?_) List.Pairwise.nil)
      · simp [kgIds, kgCexNodes, objLookup] at hb
        subst hb
        decide
      · simp [kgIds, kgCexNodes, objLookup] at hb)
    (by
      intro l hl
      simp only [kgCexLinks, List.mem_cons, List.not_mem_nil, or_false] at hl
      subst hl
      exact ⟨_, .jint 0, .jint 99, rfl, rfl, rfl, rfl, rfl⟩)
    ⟨_, List.mem_cons_self _ _, _, .jint 0, .jint 99, rfl, rfl, rfl, Or.inr (by decide)⟩
  have hpl := claim_C4_amended.2
    [("nodes", .jarr plCexNodes), ("links", .jarr plCexLinks)] plCexNodes plCexLinks rfl rfl
    (by
      intro n hn
      simp only [plCexNodes, List.mem_cons, List.not_mem_nil, or_false] at hn
      rcases hn with h | h <;> subst h
      · exact ⟨_, 0, rfl, rfl, rfl⟩
      · exact ⟨_, 1, rfl, rfl, rfl⟩)
    (by decide)
    (by
      intro l hl
      simp only [plCexLinks, List.mem_cons, List.not_mem_nil, or_false] at hl
      subst hl
      exact ⟨_, .jint 0, .jint 99, .jint 1, rfl, rfl, rfl, rfl, rfl, rfl, rfl, by decide⟩)
    ⟨_, List.mem_cons_self _ _, _, .jint 0, .jint 99, rfl, rfl, rfl, Or.inr (by decide)⟩
  exact ⟨hkg, hpl.1, hpl.2⟩

/-!
## Pairwise-similarity matrix checks (claims C6 and C9)
-/

/-- The entry at row `i`, column `j` of a decoded matrix. -/
def matEntry (rows : List JVal) (i j : Nat) : JVal :=
  match rows.getD i .jnull with
  | .jarr vals => vals.getD j .jnull
  | _ => .jnull

/-- Indexing a list by an in-range non-negative Python index. -/
theorem listIndex_of_lt (xs : List JVal) (j : Nat) (h : j < xs.length) :
    listIndex xs (j : Int) = .ok (xs.getD j .jnull) := by
  have h0 : ¬ ((j : Int) < 0) := by omega
  dsimp only [listIndex]
  rw [if_neg h0, if_pos (by constructor <;> omega)]
  simp

namespace DataValidation

/-- The inner pairwise loop never early-returns a `True` verdict. -/
theorem psValLoop_no_true (matrix : List JVal) (i : Nat) (vals : List JVal) :
    ∀ j m, psValLoop matrix i vals j ≠ .ok (some (true, m)) := by
  induction vals with
  | nil => intro j m h; simp [psValLoop] at h
  | cons v rest ih =>
      intro j m h
      simp only [psValLoop, bind, Except.bind, pure, Except.pure] at h
      repeat' split at h
      all_goals first
        | exact ih _ _ h
        | simp_all

/-- The outer pairwise loop never early-returns a `True` verdict. -/
theorem psRowLoop_no_true (n : Nat) (matrix : List JVal) (rows : List JVal) :
    ∀ i m, psRowLoop n matrix rows i ≠ .ok (some (true, m)) := by
  induction rows with
  | nil => intro i m h; simp [psRowLoop] at h
  | cons row rest ih =>
      intro i m h
      simp only [psRowLoop, bind, Except.bind, pure, Except.pure] at h
      repeat' split at h
      all_goals first
        | exact ih _ _ h
        | exact psValLoop_no_true matrix i _ 0 _ (by assumption)
        | (simp_all
           try exact psValLoop_no_true matrix i _ 0 _ (by assumption)
           try exact ih _ _ (by assumption))

end DataValidation

namespace DataValidation

/-- If the inner pairwise loop completes, every scanned position passed
the symmetry check: `matrix[j][i]` was readable and equal to the value
at `(i, j)`. -/
theorem psValLoop_ok_sym (matrix : List JVal) (i : Nat) (vals : List JVal) :
    ∀ j0, psValLoop matrix i vals j0 = .ok none →
    ∀ idx, idx < vals.length →
      ∃ rowJ mji, pySubscr (.jarr matrix) (.jint (j0 + idx)) = .ok rowJ
        ∧ pySubscr rowJ (.jint i) = .ok mji
        ∧ pyEq mji (vals.getD idx .jnull) = true := by
  induction vals with
  | nil => intro j0 _ idx hidx; simp at hidx
  | cons v rest ih =>
      intro j0 h idx hidx
      simp only [psValLoop, bind, Except.bind, pure, Except.pure] at h
      repeat' split at h
      all_goals try simp_all
      rename_i hnum hrange hrow hmji hsym hdiag
      cases idx with
      | zero =>
          refine ⟨_, ?_, _, hmji, ?_⟩
          · simpa using hrow
          · simpa using hsym
      | succ k =>
          obtain ⟨rowJ2, ha, mji2, hb, hc⟩ := ih (j0 + 1) h k (by omega)
          refine ⟨rowJ2, ?_, mji2, hb, ?_⟩
          · have harith : ((j0 + 1 : Nat) : Int) + (k : Int)
                = ((j0 : Nat) : Int) + ((k + 1 : Nat) : Int) := by
              push_cast
              ring
            rw [← harith]
            exact ha
          · simpa using hc

end DataValidation

namespace DataValidation

/-- If the outer pairwise loop completes, every row is a list of the
right width whose inner loop completed. -/
theorem psRowLoop_ok (n : Nat) (matrix : List JVal) (rows : List JVal) :
    ∀ i0, psRowLoop n matrix rows i0 = .ok none →
    ∀ k, k < rows.length →
      ∃ vals, rows.getD k .jnull = .jarr vals ∧ vals.length = n
        ∧ psValLoop matrix (i0 + k) vals 0 = .ok none := by
  induction rows with
  | nil => intro i0 _ k hk; simp at hk
  | cons row rest ih =>
      intro i0 h k hk
      simp only [psRowLoop, bind, Except.bind, pure, Except.pure] at h
      repeat' split at h
      all_goals try simp_all
      rename_i hlist hlenn hveq hiter hval
      obtain ⟨vals0, rfl⟩ : ∃ vals0, row = JVal.jarr vals0 := by
        cases row <;> simp [JVal.isList] at hlist
        exact ⟨_, rfl⟩
      simp only [pyLen, Except.ok.injEq] at hlenn
      simp only [pyIter, Except.ok.injEq] at hiter
      subst hiter
      cases k with
      | zero => exact ⟨vals0, by simp, hlenn, by simpa using hval⟩
      | succ k2 =>
          obtain ⟨vals, ha, hb, hc⟩ := ih (i0 + 1) h k2 (by omega)
          refine ⟨vals, by simpa using ha, hb, ?_⟩
          have harith : i0 + 1 + k2 = i0 + (k2 + 1) := by omega
          rw [harith] at hc
          exact hc

end DataValidation

namespace DataValidation

/-- If the pairwise body returns `True`, its matrix scan completed. -/
theorem pairwiseBody_true (kvs : List (String × JVal)) (samples rows : List JVal) (m : String)
    (hsam : objLookup kvs "samples" = some (.jarr samples))
    (hmat : objLookup kvs "matrix" = some (.jarr rows))
    (h : pairwiseBody (.jobj kvs) = .ok (true, m)) :
    psRowLoop samples.length rows rows 0 = .ok none := by
  unfold pairwiseBody at h
  simp only [bind, Except.bind, pure, Except.pure, JVal.isObj, pyContains, pyHashable,
    pySubscr, pyLen, pyIter, JVal.isList, hsam, hmat, Option.isSome_some, Bool.not_true,
    Bool.not_false, Bool.false_eq_true, if_false, if_true, ite_true, ite_false,
    Bool.not_eq_true] at h
  by_cases h2 : samples.length < 2
  · simp [h2] at h
  · rw [if_neg h2] at h
    cases hset : pySetOfList samples with
    | error e => rw [hset] at h; simp at h
    | ok sset =>
        rw [hset] at h
        dsimp only at h
        by_cases h3 : (samples.length != sset.length) = true
        · simp [h3] at h
        · simp only [Bool.not_eq_true] at h3
          rw [h3] at h
          simp only [Bool.false_eq_true, if_false, if_neg] at h
          by_cases h4 : (rows.length != samples.length) = true
          · simp [h4] at h
          · simp only [Bool.not_eq_true] at h4
            rw [h4] at h
            simp only [Bool.false_eq_true, if_false, if_neg] at h
            cases hloop : psRowLoop samples.length rows rows 0 with
            | error e => rw [hloop] at h; simp at h
            | ok o =>
                rw [hloop] at h
                dsimp only at h
                cases o with
                | none => rfl
                | some r =>
                    exfalso
                    simp only [Except.ok.injEq] at h
                    rw [h] at hloop
                    exact psRowLoop_no_true _ _ _ _ _ hloop

end DataValidation

/-- Claim C6: an input whose `samples` is a list of at least two
entries and whose `matrix` is a square list of numeric rows with
values in [0, 1] is rejected by `validate_pairwise_similarity`
whenever the matrix is asymmetric (`matrix[i][j] != matrix[j][i]` for
some in-range `i`, `j`). -/
theorem claim_C6 (kvs : List (String × JVal)) (samples rows : List JVal) (i j : Nat)
    (hsam : objLookup kvs "samples" = some (.jarr samples))
    (hmat : objLookup kvs "matrix" = some (.jarr rows))
    (hlen2 : 2 ≤ samples.length)
    (hdim : rows.length = samples.length)
    (hrows : ∀ k, k < rows.length →
      ∃ vals, rows.getD k .jnull = .jarr vals ∧ vals.length = samples.length ∧
        ∀ idx, idx < vals.length → isNum (vals.getD idx .jnull) = true
          ∧ 0 ≤ toRat (vals.getD idx .jnull) ∧ toRat (vals.getD idx .jnull) ≤ 1)
    (hi : i < samples.length) (hj : j < samples.length)
    (hasym : toRat (matEntry rows i j) ≠ toRat (matEntry rows j i)) :
    ∃ msg, DataValidation.validate_pairwise_similarity (.jobj kvs) = .ok (false, msg) := by
  cases hb : DataValidation.pairwiseBody (.jobj kvs) with
  | error e =>
      exact ⟨"Unexpected error during validation: " ++ pyErrMsg e,
        by simp [DataValidation.validate_pairwise_similarity, hb]⟩
  | ok r =>
      obtain ⟨bv, msg⟩ := r
      cases bv with
      | false => exact ⟨msg, by simp [DataValidation.validate_pairwise_similarity, hb]⟩
      | true =>
          exfalso
          have hloop := DataValidation.pairwiseBody_true kvs samples rows msg hsam hmat hb
          have hi' : i < rows.length := by omega
          have hj' : j < rows.length := by omega
          obtain ⟨valsI, hri, hliI, hvI⟩ := DataValidation.psRowLoop_ok _ rows rows 0 hloop i hi'
          obtain ⟨valsJ, hrj, hliJ, _⟩ := DataValidation.psRowLoop_ok _ rows rows 0 hloop j hj'
          have hvI' : DataValidation.psValLoop rows i valsI 0 = .ok none := by
            simpa using hvI
          have hjlt : j < valsI.length := by omega
          obtain ⟨rowJ, mji, hsub1, hsub2, hpe⟩ :=
            DataValidation.psValLoop_ok_sym rows i valsI 0 hvI' j hjlt
          simp only [Nat.cast_zero, zero_add] at hsub1
          have hsub1' : pySubscr (.jarr rows) (.jint (j : Int)) = .ok (rows.getD j .jnull) := by
            simp only [pySubscr]
            exact listIndex_of_lt rows j hj'
          rw [hsub1'] at hsub1
          have hrowJ : rowJ = .jarr valsJ := by
            have h9 : rowJ = rows.getD j .jnull := by
              have := hsub1.symm
              simp only [Except.ok.injEq] at this
              exact this
            exact h9.trans hrj
          subst hrowJ
          have hilt : i < valsJ.length := by omega
          have hsub2' : pySubscr (.jarr valsJ) (.jint (i : Int)) = .ok (valsJ.getD i .jnull) := by
            simp only [pySubscr]
            exact listIndex_of_lt valsJ i hilt
          rw [hsub2'] at hsub2
          have hmji : mji = valsJ.getD i .jnull := by
            simpa using hsub2.symm
          subst hmji
          obtain ⟨valsI2, hri2, hlenI2, hvalsI⟩ := hrows i hi'
          obtain ⟨valsJ2, hrj2, hlenJ2, hvalsJ⟩ := hrows j hj'
          have heqI : valsI2 = valsI := by
            rw [hri] at hri2
            simp only [JVal.jarr.injEq] at hri2
            exact hri2.symm
          have heqJ : valsJ2 = valsJ := by
            rw [hrj] at hrj2
            simp only [JVal.jarr.injEq] at hrj2
            exact hrj2.symm
          have hnum1 : isNum (valsJ.getD i .jnull) = true := by
            have h9 := (hvalsJ i (by rw [heqJ]; exact hilt)).1
            rwa [heqJ] at h9
          have hnum2 : isNum (valsI.getD j .jnull) = true := by
            have h9 := (hvalsI j (by rw [heqI]; exact hjlt)).1
            rwa [heqI] at h9
          have hToRat : toRat (valsJ.getD i .jnull) = toRat (valsI.getD j .jnull) := by
            have h9 := hpe
            rw [pyEq_num _ _ hnum1 hnum2] at h9
            exact beq_iff_eq.mp h9
          apply hasym
          have hmeI : matEntry rows i j = valsI.getD j .jnull := by
            unfold matEntry
            rw [hri]
          have hmeJ : matEntry rows j i = valsJ.getD i .jnull := by
            unfold matEntry
            rw [hrj]
          rw [hmeI, hmeJ, hToRat]

/-- Claim C6 witness: the asymmetric matrix
`[[1.0, 0.5], [0.3, 1.0]]` over samples `["a", "b"]` is rejected. -/
theorem claim_C6_witness :
    ∃ msg, DataValidation.validate_pairwise_similarity
      (.jobj [("samples", .jarr [.jstr "a", .jstr "b"]),
              ("matrix", .jarr [.jarr [.jfloat 1, .jfloat (1/2)],
                                .jarr [.jfloat (3/10), .jfloat 1]])])
      = .ok (false, msg) :=
  claim_C6 _ [.jstr "a", .jstr "b"]
    [.jarr [.jfloat 1, .jfloat (1/2)], .jarr [.jfloat (3/10), .jfloat 1]] 0 1
    rfl rfl (by decide) (by decide)
    (by
      intro k hk
      have hk2 : k < 2 := by simpa using hk
      interval_cases k
      · exact ⟨[.jfloat 1, .jfloat (1/2)], rfl, by decide, by
          intro idx hidx
          have hidx2 : idx < 2 := by simpa using hidx
          interval_cases idx
          · refine ⟨rfl, by norm_num [toRat], by norm_num [toRat]⟩
          · refine ⟨rfl, by norm_num [toRat], by norm_num [toRat]⟩⟩
      · exact ⟨[.jfloat (3/10), .jfloat 1], rfl, by decide, by
          intro idx hidx
          have hidx2 : idx < 2 := by simpa using hidx
          interval_cases idx
          · refine ⟨rfl, by norm_num [toRat], by norm_num [toRat]⟩
          · refine ⟨rfl, by norm_num [toRat], by norm_num [toRat]⟩⟩)
    (by decide) (by decide)
    (by norm_num [matEntry, toRat])

/-- A prefix of a list is a prefix of any extension. -/
theorem isPrefixChars_extend (sub l ys : List Char) :
    isPrefixChars sub l = true → isPrefixChars sub (l ++ ys) = true := by
  induction sub generalizing l with
  | nil => intro _; rfl
  | cons c cs ih =>
      intro h
      cases l with
      | nil => simp [isPrefixChars] at h
      | cons d ds =>
          simp only [isPrefixChars, Bool.and_eq_true] at h
          simp only [List.cons_append, isPrefixChars, Bool.and_eq_true]
          exact ⟨h.1, ih ds h.2⟩

/-- Containment in a list survives appending on the right. -/
theorem containsChars_extend (xs ys sub : List Char) :
    containsChars xs sub = true → containsChars (xs ++ ys) sub = true := by
  induction xs with
  | nil =>
      intro h
      simp only [containsChars] at h
      cases sub with
      | nil =>
          cases ys with
          | nil => rfl
          | cons y ys2 => simp [containsChars, isPrefixChars]
      | cons c cs => simp [isPrefixChars] at h
  | cons x xs2 ih =>
      intro h
      simp only [containsChars, Bool.or_eq_true] at h
      simp only [List.cons_append, containsChars, Bool.or_eq_true]
      rcases h with h | h
      · exact Or.inl (by simpa using isPrefixChars_extend sub (x :: xs2) ys h)
      · exact Or.inr (ih h)

/-- A substring of `a` is a substring of `a ++ b`. -/
theorem strContains_append_left (a b sub : String) :
    strContains a sub = true → strContains (a ++ b) sub = true := by
  intro h
  have hl : (a ++ b).toList = a.toList ++ b.toList := by simp [String.toList]
  rw [strContains, hl]
  exact containsChars_extend _ _ _ h

/-- Building a Python set from hashable pairwise-distinct values keeps
them all in order. -/
theorem pySetOfListAux_ok (xs : List JVal) : ∀ acc,
    (∀ x ∈ xs, pyHashable x = true) →
    List.Pairwise (fun a b => pyEq a b = false) (acc ++ xs) →
    pySetOfListAux acc xs = .ok (acc ++ xs) := by
  induction xs with
  | nil => intro acc _ _; simp [pySetOfListAux]
  | cons x rest ih =>
      intro acc hh hpw
      have hx := hh x (List.mem_cons_self x rest)
      have hmem : acc.any (fun y => pyEq y x) = false := by
        rw [List.any_eq_false]
        intro a ha
        have := (List.pairwise_append.mp hpw).2.2 a ha x (List.mem_cons_self _ _)
        simp [this]
      simp only [pySetOfListAux, bind, Except.bind, pySetAdd, hx, if_pos, hmem,
        Bool.false_eq_true, if_false, if_neg, not_false_iff]
      have hpw2 : List.Pairwise (fun a b => pyEq a b = false) ((acc ++ [x]) ++ rest) := by
        rw [List.append_assoc, List.singleton_append]
        exact hpw
      have := ih (acc ++ [x]) (fun m hm => hh m (List.mem_cons_of_mem _ hm)) hpw2
      rw [List.append_assoc, List.singleton_append] at this
      simpa using this

/-- `set(samples)` of hashable pairwise-distinct samples. -/
theorem pySetOfList_ok (xs : List JVal)
    (hh : ∀ x ∈ xs, pyHashable x = true)
    (hpw : List.Pairwise (fun a b => pyEq a b = false) xs) :
    pySetOfList xs = .ok xs := by
  have := pySetOfListAux_ok xs [] hh (by simpa using hpw)
  simpa [pySetOfList] using this

namespace DataValidation

/-- The inner pairwise loop completes when every scanned value is a
number in range, the symmetry probe succeeds with equal values, and
any scanned diagonal cell equals 1.0. -/
theorem psValLoop_good_none (matrix : List JVal) (i : Nat) (vals : List JVal) : ∀ j0 : Nat,
    (∀ idx, idx < vals.length → isNum (vals.getD idx .jnull) = true
      ∧ 0 ≤ toRat (vals.getD idx .jnull) ∧ toRat (vals.getD idx .jnull) ≤ 1) →
    (∀ idx, idx < vals.length → ∃ rowJ mji,
      pySubscr (.jarr matrix) (.jint (j0 + idx)) = .ok rowJ
        ∧ pySubscr rowJ (.jint i) = .ok mji
        ∧ pyEq mji (vals.getD idx .jnull) = true) →
    (∀ idx, idx < vals.length → j0 + idx = i →
      pyEq (vals.getD idx .jnull) (.jfloat 1) = true) →
    psValLoop matrix i vals j0 = .ok none := by
  induction vals with
  | nil => intro j0 _ _ _; rfl
  | cons v rest ih =>
      intro j0 hgood hsym hdiag
      obtain ⟨hnum, hge, hle⟩ := hgood 0 (by simp)
      obtain ⟨rowJ, mji, hs1, hs2, hpe⟩ := hsym 0 (by simp)
      simp only [List.getD_cons_zero] at hnum hge hle hpe
      simp only [Nat.cast_zero, add_zero] at hs1
      have hrange : ¬ (toRat v < 0 ∨ 1 < toRat v) := by
        push_neg
        exact ⟨hge, hle⟩
      have hdiag0 : (i == j0 && !pyEq v (.jfloat 1)) = false := by
        by_cases hij : i = j0
        · have := hdiag 0 (by simp) (by omega)
          simp only [List.getD_cons_zero] at this
          simp [hij, this]
        · simp [hij]
      simp only [psValLoop, bind, Except.bind, pure, Except.pure, hnum, Bool.not_true,
        Bool.false_eq_true, if_false, if_neg, not_false_iff]
      rw [if_neg (by simpa using hrange)]
      rw [hs1]
      dsimp only
      rw [hs2]
      dsimp only
      simp only [hpe, Bool.not_true, Bool.false_eq_true, if_false, if_neg, not_false_iff]
      rw [if_neg (by simp [hdiag0])]
      apply ih (j0 + 1)
      · intro idx hidx
        have := hgood (idx + 1) (by simpa using hidx)
        simpa using this
      · intro idx hidx
        obtain ⟨rowJ2, mji2, ha, hb, hc⟩ := hsym (idx + 1) (by simpa using hidx)
        refine ⟨rowJ2, mji2, ?_, hb, by simpa using hc⟩
        have harith : (j0 : Int) + ((idx + 1 : Nat) : Int)
            = ((j0 + 1 : Nat) : Int) + (idx : Int) := by
          push_cast
          ring
        rw [harith] at ha
        exact ha
      · intro idx hidx hji
        have := hdiag (idx + 1) (by simpa using hidx) (by omega)
        simpa using this

/-- The inner pairwise loop stops with the self-similarity message when
everything is in order except a scanned diagonal cell that is not 1.0. -/
theorem psValLoop_good_diag (matrix : List JVal) (i : Nat) (vals : List JVal) : ∀ j0 : Nat,
    (∀ idx, idx < vals.length → isNum (vals.getD idx .jnull) = true
      ∧ 0 ≤ toRat (vals.getD idx .jnull) ∧ toRat (vals.getD idx .jnull) ≤ 1) →
    (∀ idx, idx < vals.length → ∃ rowJ mji,
      pySubscr (.jarr matrix) (.jint (j0 + idx)) = .ok rowJ
        ∧ pySubscr rowJ (.jint i) = .ok mji
        ∧ pyEq mji (vals.getD idx .jnull) = true) →
    (∃ idx, idx < vals.length ∧ j0 + idx = i
      ∧ pyEq (vals.getD idx .jnull) (.jfloat 1) = false) →
    psValLoop matrix i vals j0 = .ok (some (false,
      "Invalid self-similarity at position (" ++ toString i ++ ","
        ++ toString i ++ "): Must be 1.0")) := by
  induction vals with
  | nil =>
      intro j0 _ _ hbad
      obtain ⟨idx, hidx, _⟩ := hbad
      simp at hidx
  | cons v rest ih =>
      intro j0 hgood hsym hbad
      obtain ⟨hnum, hge, hle⟩ := hgood 0 (by simp)
      obtain ⟨rowJ, mji, hs1, hs2, hpe⟩ := hsym 0 (by simp)
      simp only [List.getD_cons_zero] at hnum hge hle hpe
      simp only [Nat.cast_zero, add_zero] at hs1
      have hrange : ¬ (toRat v < 0 ∨ 1 < toRat v) := by
        push_neg
        exact ⟨hge, hle⟩
      simp only [psValLoop, bind, Except.bind, pure, Except.pure, hnum, Bool.not_true,
        Bool.false_eq_true, if_false, if_neg, not_false_iff]
      rw [if_neg (by simpa using hrange)]
      rw [hs1]
      dsimp only
      rw [hs2]
      dsimp only
      simp only [hpe, Bool.not_true, Bool.false_eq_true, if_false, if_neg, not_false_iff]
      by_cases hij : j0 = i
      · obtain ⟨idx, hidx, hji, hbadv⟩ := hbad
        have hidx0 : idx = 0 := by omega
        subst hidx0
        simp only [List.getD_cons_zero] at hbadv
        rw [if_pos (by simp [hij, hbadv])]
      · obtain ⟨idx, hidx, hji, hbadv⟩ := hbad
        have hidxpos : idx ≠ 0 := by
          intro h0
          subst h0
          omega
        rw [if_neg (by simp [Ne.symm hij])]
        apply ih (j0 + 1)
        · intro k hk
          have := hgood (k + 1) (by simpa using hk)
          simpa using this
        · intro k hk
          obtain ⟨rowJ2, mji2, ha, hb, hc⟩ := hsym (k + 1) (by simpa using hk)
          refine ⟨rowJ2, mji2, ?_, hb, by simpa using hc⟩
          have harith : (j0 : Int) + ((k + 1 : Nat) : Int)
              = ((j0 + 1 : Nat) : Int) + (k : Int) := by
            push_cast
            ring
          rw [harith] at ha
          exact ha
        · obtain ⟨k, rfl⟩ : ∃ k, idx = k + 1 := ⟨idx - 1, by omega⟩
          simp only [List.length_cons] at hidx
          refine ⟨k, by omega, by omega, by simpa using hbadv⟩

end DataValidation

namespace DataValidation

/-- Over a structurally well-formed symmetric in-range matrix whose
scanned suffix contains a diagonal entry different from 1.0, the outer
pairwise loop stops with a self-similarity message. -/
theorem psRowLoop_good (n : Nat) (matrix : List JVal)
    (hmatlen : matrix.length = n)
    (hshape : ∀ k, k < n → ∃ vals, matrix.getD k .jnull = .jarr vals ∧ vals.length = n ∧
      ∀ idx, idx < n → isNum (vals.getD idx .jnull) = true
        ∧ 0 ≤ toRat (vals.getD idx .jnull) ∧ toRat (vals.getD idx .jnull) ≤ 1)
    (hsymm : ∀ a b, a < n → b < n →
      toRat (matEntry matrix a b) = toRat (matEntry matrix b a)) :
    ∀ rows i0, (∀ k, k < rows.length → rows.getD k .jnull = matrix.getD (i0 + k) .jnull) →
    i0 + rows.length ≤ n →
    (∃ idx, idx < rows.length ∧ toRat (matEntry matrix (i0 + idx) (i0 + idx)) ≠ 1) →
    ∃ i : Nat, psRowLoop n matrix rows i0 = .ok (some (false,
      "Invalid self-similarity at position (" ++ toString i ++ ","
        ++ toString i ++ "): Must be 1.0")) := by
  intro rows
  induction rows with
  | nil =>
      intro i0 _ _ hbad
      obtain ⟨idx, hidx, _⟩ := hbad
      simp at hidx
  | cons row rest ih =>
      intro i0 hsuf hle hbad
      have hi0 : i0 < n := by
        simp only [List.length_cons] at hle
        omega
      obtain ⟨vals, hv, hvlen, hvgood⟩ := hshape i0 hi0
      have hrow : row = .jarr vals := by
        have := hsuf 0 (by simp)
        simp only [List.getD_cons_zero, Nat.add_zero] at this
        rw [this, hv]
      subst hrow
      have hstep : ∀ tail, psRowLoop n matrix (JVal.jarr vals :: tail) i0 =
          (match psValLoop matrix i0 vals 0 with
           | .error err => .error err
           | .ok (some r) => .ok (some r)
           | .ok none => psRowLoop n matrix tail (i0 + 1)) := by
        intro tail
        simp only [psRowLoop, bind, Except.bind, pure, Except.pure, JVal.isList, pyLen,
          pyIter, Bool.not_true, Bool.false_eq_true, if_false, if_neg, not_false_iff, hvlen]
        simp only [bne_self_eq_false, Bool.false_eq_true, if_false, if_neg, not_false_iff]
        cases psValLoop matrix i0 vals 0 with
        | error e => rfl
        | ok o => cases o <;> rfl
      have hgood : ∀ idx, idx < vals.length → isNum (vals.getD idx .jnull) = true
          ∧ 0 ≤ toRat (vals.getD idx .jnull) ∧ toRat (vals.getD idx .jnull) ≤ 1 := by
        intro idx hidx
        exact hvgood idx (by omega)
      have hsymp : ∀ idx, idx < vals.length → ∃ rowJ mji,
          pySubscr (.jarr matrix) (.jint (0 + idx)) = .ok rowJ
            ∧ pySubscr rowJ (.jint i0) = .ok mji
            ∧ pyEq mji (vals.getD idx .jnull) = true := by
        intro idx hidx
        have hidxn : idx < n := by omega
        obtain ⟨valsIdx, hvi, hvilen, hvigood⟩ := hshape idx hidxn
        refine ⟨matrix.getD idx .jnull, valsIdx.getD i0 .jnull, ?_, ?_, ?_⟩
        · have := listIndex_of_lt matrix (0 + idx) (by omega)
          simpa [pySubscr] using this
        · rw [hvi]
          simp only [pySubscr]
          exact listIndex_of_lt valsIdx i0 (by omega)
        · have hnum1 : isNum (valsIdx.getD i0 .jnull) = true := (hvigood i0 hi0).1
          have hnum2 : isNum (vals.getD idx .jnull) = true := (hvgood idx hidxn).1
          rw [pyEq_num _ _ hnum1 hnum2]
          have he1 : matEntry matrix idx i0 = valsIdx.getD i0 .jnull := by
            unfold matEntry
            rw [hvi]
          have he2 : matEntry matrix i0 idx = vals.getD idx .jnull := by
            unfold matEntry
            rw [hv]
          have := hsymm idx i0 hidxn hi0
          rw [he1, he2] at this
          exact beq_iff_eq.mpr this
      by_cases hdiagv : toRat (matEntry matrix i0 i0) = 1
      · have hnone : psValLoop matrix i0 vals 0 = .ok none := by
          apply psValLoop_good_none matrix i0 vals 0 hgood hsymp
          intro idx hidx hji
          have hidx0 : idx = i0 := by omega
          subst hidx0
          have hnum : isNum (vals.getD idx .jnull) = true := (hvgood idx (by omega)).1
          rw [pyEq_num _ _ hnum (by rfl)]
          have he : matEntry matrix idx idx = vals.getD idx .jnull := by
            unfold matEntry
            rw [hv]
          rw [he] at hdiagv
          rw [show toRat (JVal.jfloat 1) = 1 from rfl, hdiagv]
          decide
        rw [hstep, hnone]
        obtain ⟨idx, hidx, hbadv⟩ := hbad
        have hidxpos : idx ≠ 0 := by
          intro h0
          subst h0
          simp only [Nat.add_zero] at hbadv
          exact hbadv hdiagv
        obtain ⟨k, rfl⟩ : ∃ k, idx = k + 1 := ⟨idx - 1, by omega⟩
        simp only [List.length_cons] at hidx hle
        apply ih (i0 + 1)
        · intro m hm
          have h2 := hsuf (m + 1) (by simp; omega)
          simp only [List.getD_cons_succ] at h2
          rw [h2]
          have harith : i0 + (m + 1) = i0 + 1 + m := by omega
          rw [harith]
        · omega
        · refine ⟨k, by omega, ?_⟩
          have : i0 + 1 + k = i0 + (k + 1) := by omega
          rw [this]
          exact hbadv
      · refine ⟨i0, ?_⟩
        rw [hstep]
        have hdiag : psValLoop matrix i0 vals 0 = .ok (some (false,
            "Invalid self-similarity at position (" ++ toString i0 ++ ","
              ++ toString i0 ++ "): Must be 1.0")) := by
          apply psValLoop_good_diag matrix i0 vals 0 hgood hsymp
          refine ⟨i0, by omega, by omega, ?_⟩
          have hnum : isNum (vals.getD i0 .jnull) = true := (hvgood i0 hi0).1
          rw [pyEq_num _ _ hnum (by rfl)]
          have he : matEntry matrix i0 i0 = vals.getD i0 .jnull := by
            unfold matEntry
            rw [hv]
          rw [he] at hdiagv
          rw [show toRat (JVal.jfloat 1) = 1 from rfl]
          exact beq_eq_false_iff_ne.mpr hdiagv
        rw [hdiag]

end DataValidation

/-- Claim C9: `validate_pairwise_similarity` additionally requires every
diagonal entry to equal exactly 1.0: on an input whose `samples` and
`matrix` pass all structural, range, and symmetry checks, a diagonal
entry different from 1.0 makes the validator return an invalid verdict
whose message mentions self-similarity. -/
theorem claim_C9 (kvs : List (String × JVal)) (samples matrix : List JVal) (n : Nat)
    (hs : objLookup kvs "samples" = some (.jarr samples))
    (hm : objLookup kvs "matrix" = some (.jarr matrix))
    (hslen : samples.length = n)
    (hn2 : 2 ≤ n)
    (hstr : ∀ x ∈ samples, ∃ s, x = JVal.jstr s)
    (hdist : List.Pairwise (fun a b => pyEq a b = false) samples)
    (hmatlen : matrix.length = n)
    (hshape : ∀ k, k < n → ∃ vals, matrix.getD k .jnull = .jarr vals ∧ vals.length = n ∧
      ∀ idx, idx < n → isNum (vals.getD idx .jnull) = true
        ∧ 0 ≤ toRat (vals.getD idx .jnull) ∧ toRat (vals.getD idx .jnull) ≤ 1)
    (hsymm : ∀ a b, a < n → b < n →
      toRat (matEntry matrix a b) = toRat (matEntry matrix b a))
    (hbad : ∃ i, i < n ∧ toRat (matEntry matrix i i) ≠ 1) :
    ∃ msg, DataValidation.validate_pairwise_similarity (.jobj kvs) = .ok (false, msg)
      ∧ strContains msg "self-similarity" = true := by
  have hset : pySetOfList samples = .ok samples := by
    apply pySetOfList_ok
    · intro x hx
      obtain ⟨s, rfl⟩ := hstr x hx
      rfl
    · exact hdist
  obtain ⟨i, hloop⟩ := DataValidation.psRowLoop_good n matrix hmatlen hshape hsymm matrix 0
    (fun k _ => by rw [Nat.zero_add])
    (by omega)
    (by
      obtain ⟨i, hi, hne⟩ := hbad
      exact ⟨i, by omega, by simpa using hne⟩)
  refine ⟨"Invalid self-similarity at position (" ++ toString i ++ ","
      ++ toString i ++ "): Must be 1.0", ?_, ?_⟩
  · have hbody : DataValidation.pairwiseBody (.jobj kvs) = .ok (false,
        "Invalid self-similarity at position (" ++ toString i ++ ","
          ++ toString i ++ "): Must be 1.0") := by
      unfold DataValidation.pairwiseBody
      simp only [bind, Except.bind, pure, Except.pure, JVal.isObj, pyContains, pyHashable,
        pySubscr, pyLen, pyIter, JVal.isList, hs, hm, Option.isSome_some, Bool.not_true,
        Bool.not_false, Bool.false_eq_true, if_false, if_true, ite_true, ite_false,
        Bool.not_eq_true]
      rw [hslen, hmatlen]
      rw [if_neg (by omega : ¬ n < 2)]
      rw [hset]
      dsimp only
      simp only [bne_self_eq_false, Bool.false_eq_true, if_false, if_neg, not_false_iff]
      rw [hloop]
      simp only [hslen, bne_self_eq_false, Bool.false_eq_true, if_false, if_neg, not_false_iff]
    unfold DataValidation.validate_pairwise_similarity
    rw [hbody]
  · have h1 : strContains "Invalid self-similarity at position (" "self-similarity" = true := by
      decide
    have h2 := strContains_append_left _ (toString i) _ h1
    have h3 := strContains_append_left _ "," _ h2
    have h4 := strContains_append_left _ (toString i) _ h3
    exact strContains_append_left _ "): Must be 1.0" _ h4

/-- Witness for claim C9 at the symmetric in-range 2x2 matrix
[[0, 1], [1, 0]], whose diagonal entries are not 1.0. -/
theorem claim_C9_witness :
    ∃ msg, DataValidation.validate_pairwise_similarity (.jobj
      [("samples", .jarr [.jstr "a", .jstr "b"]),
       ("matrix", .jarr [.jarr [.jfloat 0, .jfloat 1],
                         .jarr [.jfloat 1, .jfloat 0]])]) = .ok (false, msg)
      ∧ strContains msg "self-similarity" = true := by
  apply claim_C9
    [("samples", .jarr [.jstr "a", .jstr "b"]),
     ("matrix", .jarr [.jarr [.jfloat 0, .jfloat 1], .jarr [.jfloat 1, .jfloat 0]])]
    [.jstr "a", .jstr "b"]
    [.jarr [.jfloat 0, .jfloat 1], .jarr [.jfloat 1, .jfloat 0]] 2
    rfl rfl rfl (by omega)
  · intro x hx
    cases hx with
    | head => exact ⟨"a", rfl⟩
    | tail _ hx2 =>
        cases hx2 with
        | head => exact ⟨"b", rfl⟩
        | tail _ hx3 => cases hx3
  · refine List.Pairwise.cons ?_ (List.pairwise_singleton _ _)
    intro b hb
    cases hb with
    | head => decide
    | tail _ hb2 => cases hb2
  · exact rfl
  · intro k hk
    interval_cases k
    · refine ⟨[.jfloat 0, .jfloat 1], rfl, rfl, ?_⟩
      intro idx hidx
      interval_cases idx
      · exact ⟨rfl, by decide, by decide⟩
      · exact ⟨rfl, by decide, by decide⟩
    · refine ⟨[.jfloat 1, .jfloat 0], rfl, rfl, ?_⟩
      intro idx hidx
      interval_cases idx
      · exact ⟨rfl, by decide, by decide⟩
      · exact ⟨rfl, by decide, by decide⟩
  · intro a b ha hb
    interval_cases a <;> interval_cases b <;> decide
  · exact ⟨0, by omega, by decide⟩

/-- A substring of `ys` is a substring of `xs ++ ys` (character lists). -/
theorem containsChars_right (xs ys sub : List Char) :
    containsChars ys sub = true → containsChars (xs ++ ys) sub = true := by
  induction xs with
  | nil => intro h; simpa using h
  | cons x rest ih =>
      intro h
      simp only [List.cons_append, containsChars, List.append_eq]
      rw [ih h]
      simp

/-- A substring of `b` is a substring of `a ++ b`. -/
theorem strContains_append_right (a b sub : String) :
    strContains b sub = true → strContains (a ++ b) sub = true := by
  intro h
  have hl : (a ++ b).toList = a.toList ++ b.toList := by simp [String.toList]
  rw [strContains, hl]
  exact containsChars_right _ _ _ h

/-- Integer addition under `pyAddNum`. -/
theorem pyAddNum_jint (a b : Int) : pyAddNum (.jint a) (.jint b) = .ok (.jint (a + b)) := by
  simp only [pyAddNum, isNum, Bool.and_self, if_pos, toRat]
  congr 2
  have h : ((a : ℚ) + (b : ℚ)) = ((a + b : ℤ) : ℚ) := by push_cast; ring
  rw [h, Rat.num_intCast]

namespace NestedFeature

/-- The children loop of `validate_node` over error-free children with
integer counts accumulates the counts' sum and collects no errors. -/
theorem validateChildren_ok (kids : List JVal) : ∀ counts : List Int, ∀ a0 : Int,
    counts.length = kids.length →
    (∀ k, k < kids.length → validate_node (kids.getD k .jnull) = .ok []) →
    (∀ k, k < kids.length →
      pyGet (kids.getD k .jnull) "count" (.jint 0) = .ok (.jint (counts.getD k 0))) →
    validateChildren (.jint a0) kids = .ok ([], .jint (a0 + counts.sum)) := by
  induction kids with
  | nil =>
      intro counts a0 hlen _ _
      have hnil : counts = [] := List.eq_nil_of_length_eq_zero (by simpa using hlen)
      subst hnil
      simp [validateChildren]
  | cons child rest ih =>
      intro counts a0 hlen hok hcnt
      cases counts with
      | nil => simp at hlen
      | cons c cs =>
          have h0 := hok 0 (by simp)
          have hc0 := hcnt 0 (by simp)
          simp only [List.getD_cons_zero] at h0 hc0
          have hrec := ih cs (a0 + c) (by simpa using hlen)
            (fun k hk => by
              have := hok (k + 1) (by simpa using hk)
              simpa using this)
            (fun k hk => by
              have := hcnt (k + 1) (by simpa using hk)
              simpa using this)
          have harith : a0 + c + cs.sum = a0 + (c :: cs).sum := by
            simp only [List.sum_cons]
            ring
          simp only [validateChildren, bind, Except.bind, pure, Except.pure, h0, hc0,
            pyAddNum_jint]
          rw [hrec, harith]
          simp

end NestedFeature

/-- Claim C7: a dict node with a non-empty string name, a non-negative
integer count and error-free children whose integer counts sum to more
than the node's own count gets a non-empty error list from
`validate_node`, including a message containing "less than sum of
children". -/
theorem claim_C7 (kvs : List (String × JVal)) (s : String) (c : Int)
    (kids : List JVal) (counts : List Int)
    (hname : objLookup kvs "name" = some (.jstr s))
    (hnonempty : (pyStrip s).isEmpty = false)
    (hcount : objLookup kvs "count" = some (.jint c))
    (hc0 : 0 ≤ c)
    (hch2 : objLookup kvs "children" = some (.jarr kids))
    (hclen : counts.length = kids.length)
    (hkok : ∀ k, k < kids.length → NestedFeature.validate_node (kids.getD k .jnull) = .ok [])
    (hkc : ∀ k, k < kids.length →
      pyGet (kids.getD k .jnull) "count" (.jint 0) = .ok (.jint (counts.getD k 0)))
    (hsum : c < counts.sum) :
    ∃ errs, NestedFeature.validate_node (.jobj kvs) = .ok errs ∧ errs ≠ []
      ∧ ∃ m ∈ errs, strContains m "less than sum of children" = true := by
  have hvc := NestedFeature.validateChildren_ok kids counts 0 hclen hkok hkc
  rw [zero_add] at hvc
  have hgt : pyGtNum (.jint counts.sum) (.jint c) = .ok true := by
    simp only [pyGtNum, isNum, Bool.and_self, if_pos, toRat, Except.ok.injEq,
      decide_eq_true_eq]
    exact_mod_cast hsum
  refine ⟨["Node '" ++ pyStr (.jstr s) ++ "' count (" ++ pyStr (.jint c)
      ++ ") is less than sum of children (" ++ pyStr (.jint counts.sum) ++ ")"],
    ?_, by simp, ?_⟩
  · rw [NestedFeature.validate_node]
    simp only [hname, hcount, Option.getD_some, hnonempty, Bool.false_eq_true, if_false,
      if_neg, not_false_iff]
    rw [if_neg (by omega : ¬ c < 0)]
    rw [hch2]
    dsimp only
    rw [hvc]
    simp only [bind, Except.bind, pure, Except.pure]
    rw [hgt]
    simp
  · refine ⟨_, List.mem_singleton.mpr rfl, ?_⟩
    have h1 : strContains ") is less than sum of children ("
        "less than sum of children" = true := by decide
    have h2 := strContains_append_right ("Node '" ++ pyStr (.jstr s) ++ "' count ("
        ++ pyStr (.jint c)) _ _ h1
    have h3 := strContains_append_left _ (pyStr (.jint counts.sum)) _ h2
    exact strContains_append_left _ ")" _ h3

/-- Witness for claim C7: a parent of count 2 with a single valid child
of count 3. -/
theorem claim_C7_witness :
    ∃ errs, NestedFeature.validate_node (.jobj
      [("name", .jstr "parent"), ("count", .jint 2),
       ("children", .jarr [.jobj [("name", .jstr "a"), ("count", .jint 3)]])]) = .ok errs
      ∧ errs ≠ [] ∧ ∃ m ∈ errs, strContains m "less than sum of children" = true := by
  apply claim_C7
    [("name", .jstr "parent"), ("count", .jint 2),
     ("children", .jarr [.jobj [("name", .jstr "a"), ("count", .jint 3)]])]
    "parent" 2 [.jobj [("name", .jstr "a"), ("count", .jint 3)]] [3]
    rfl (by decide) rfl (by omega) rfl rfl
  · intro k hk
    simp only [List.length_cons, List.length_nil] at hk
    interval_cases k
    simp only [List.getD_cons_zero]
    rw [NestedFeature.validate_node]
    rfl
  · intro k hk
    simp only [List.length_cons, List.length_nil] at hk
    interval_cases k
    rfl
  · simp

/-- Claim C8: a neural-network input whose layer scan passes all
structural checks (numeric fresh layer indices, valid types, non-empty
node lists, unique node ids) but whose collected layer indices are not
the set {0, ..., N-1} is rejected by `validate_neural_network_data`
with a message containing "sequential". -/
theorem claim_C8 (kvs : List (String × JVal)) (layers : List JVal)
    (li : List Rat) (nids : List JVal) (nlayers : List (JVal × JVal))
    (hl : objLookup kvs "layers" = some (.jarr layers))
    (hc : ∃ conns, objLookup kvs "connections" = some (.jarr conns))
    (h2 : 2 ≤ layers.length)
    (hloop : NeuralNetwork.layerLoop [] [] [] layers = .ok (.inr (li, nids, nlayers)))
    (hseq : NeuralNetwork.setEqRange li li.length = false) :
    NeuralNetwork.validate_neural_network_data (.jobj kvs) =
      .ok (false, "Layer indices must be sequential starting from 0")
      ∧ strContains "Layer indices must be sequential starting from 0" "sequential" = true := by
  obtain ⟨conns, hc2⟩ := hc
  have hjson : DataValidation.validate_json_structure (.jobj kvs)
      [("layers", JVal.isList), ("connections", JVal.isList)] = true := by
    simp [DataValidation.validate_json_structure, hl, hc2, JVal.isList]
  refine ⟨?_, by decide⟩
  unfold NeuralNetwork.validate_neural_network_data
  simp only [bind, Except.bind, pure, Except.pure, hjson, Bool.not_true, Bool.false_eq_true,
    if_false, if_neg, not_false_iff, pySubscr, pyHashable, hl, pyLen, pyIter, if_true,
    ite_true]
  rw [if_neg (by omega : ¬ layers.length < 2)]
  rw [hloop]
  dsimp only
  simp only [hseq, Bool.not_false, if_true, ite_true]

/-- Witness for claim C8: two structurally valid layers carrying
indices 0 and 2 (skipping 1). -/
theorem claim_C8_witness :
    NeuralNetwork.validate_neural_network_data (.jobj
      [("layers", .jarr
         [.jobj [("layerIndex", .jint 0), ("layerType", .jstr "input"),
                 ("nodes", .jarr [.jobj [("id", .jint 1)]])],
          .jobj [("layerIndex", .jint 2), ("layerType", .jstr "output"),
                 ("nodes", .jarr [.jobj [("id", .jint 2)]])]]),
       ("connections", .jarr [])]) =
      .ok (false, "Layer indices must be sequential starting from 0")
      ∧ strContains "Layer indices must be sequential starting from 0" "sequential" = true := by
  apply claim_C8
    [("layers", .jarr
       [.jobj [("layerIndex", .jint 0), ("layerType", .jstr "input"),
               ("nodes", .jarr [.jobj [("id", .jint 1)]])],
        .jobj [("layerIndex", .jint 2), ("layerType", .jstr "output"),
               ("nodes", .jarr [.jobj [("id", .jint 2)]])]])
     , ("connections", .jarr [])]
    [.jobj [("layerIndex", .jint 0), ("layerType", .jstr "input"),
            ("nodes", .jarr [.jobj [("id", .jint 1)]])],
     .jobj [("layerIndex", .jint 2), ("layerType", .jstr "output"),
            ("nodes", .jarr [.jobj [("id", .jint 2)]])]]
    [(0 : Rat), (2 : Rat)] [.jint 1, .jint 2]
    [(.jint 1, .jint 0), (.jint 2, .jint 2)]
    rfl ⟨[], rfl⟩ (by decide) rfl rfl
